import Mathlib

/-!
Verification development for the A.R.I.S. GPU session lifecycle and
usage-accounting engine.

The embedding below models, directly from the Python source:

* `aris/modules/gpu/models.py` — the data model (`User`, `GpuNode`, `Gpu`,
  `GpuSession`, `UsageLog`, session states and usage tags);
* `aris/modules/gpu/service.py` — `GpuService.handle_session_start`,
  `handle_session_heartbeat`, `handle_session_end` and their helpers
  (`ensure_user_for_gpu_username`, `_get_or_create_node`, `_get_or_create_gpu`);
* `aris/apps/internal/routes_gpu.py` — the route wrappers and their
  raise-on-failure behaviour;
* `gpu_tracker_demo/scheduler.py` — `sweep_once`, the stale-session sweeper
  (which uses the demo variant of the data model from `models.py` at the
  repository root: `reserved_at` + `reserve_minutes` instead of
  `reserved_from`/`reserved_until`).

Modelling conventions:

* Timestamps are `Int` seconds.  Python's `(a - b).total_seconds() // 60`
  is floor division, modelled with `Int.fdiv`.
* Database rows are lists; query order stands for row order.  SQL `first()`
  under an `ORDER BY` is modelled as the leftmost row among those with the
  extremal key (a stable choice).  Postgres semantics are used for NULL
  ordering: `DESC` puts NULLs first, `ASC` puts NULLs last.
* Primary keys are `uuid4()` strings in the source; they are modelled as
  natural numbers drawn from a fresh counter `nextId` (all that matters is
  freshness/distinctness).  `UsageLog` rows are never referenced by id, so
  their generated key is not modelled.
* Each handler runs inside one transaction (`get_db` yields a session that
  is closed — hence rolled back — unless the handler reached `db.commit()`).
  Handler paths that return early without committing therefore return the
  *original* store: flushed-but-uncommitted inserts are discarded.
* SQLAlchemy's `one_or_none()` is modelled as "first match".  The lookups
  that use it are on columns with a UNIQUE constraint (`gpus.uuid`,
  `gpu_nodes.hostname`) except `users.gpu_node_username`, where the service
  only ever creates a row after a failed lookup, so no duplicates arise
  from the modelled operations.
* SQLAlchemy mutates the particular row object returned by a query; this is
  modelled as an update keyed by session id.  Theorems that depend on the
  distinction assume the database's primary-key discipline (`store_wf`:
  ids are distinct and below the fresh counter).
-/

namespace Aris

/-- Session lifecycle states, from `SessionState` in `aris/modules/gpu/models.py`. -/
inductive SessionState where
  | RESERVED
  | RUNNING
  | ENDED
deriving DecidableEq, Repr

/-- Usage-log classification tags, from `UsageTag` in `aris/modules/gpu/models.py`. -/
inductive UsageTag where
  | NORMAL
  | RESERVED
  | PENALTY
  | COMPENSATION
deriving DecidableEq, Repr

/-- A row of `users` (the fields the GPU service reads or writes). -/
structure User where
  id : Nat
  name : String
  gpuNodeUsername : Option String
  active : Bool
deriving DecidableEq, Repr

/-- A row of `gpu_nodes` (the fields the GPU service reads or writes). -/
structure GpuNode where
  id : Nat
  hostname : String
  agentVersion : Option String
deriving DecidableEq, Repr

/-- A row of `gpus`. -/
structure Gpu where
  id : Nat
  nodeId : Nat
  index : Int
  uuid : String
  name : Option String
  totalMemoryMb : Option Int
deriving DecidableEq, Repr

/-- A row of `gpu_sessions`. -/
structure GpuSession where
  id : Nat
  userId : Nat
  gpuId : Nat
  nodeId : Nat
  state : SessionState
  reservedFrom : Option Int
  reservedUntil : Option Int
  startedAt : Option Int
  endedAt : Option Int
  heartbeatAt : Option Int
  createdBy : Option String
  note : Option String
deriving DecidableEq, Repr

/-- A row of `usage_logs` (the generated primary key is not modelled). -/
structure UsageLog where
  userId : Nat
  gpuId : Nat
  nodeId : Nat
  sessionId : Option Nat
  startTs : Int
  endTs : Int
  minutes : Int
  tag : Option UsageTag
deriving DecidableEq, Repr

/-- The database state visible to the GPU service. -/
structure Store where
  nodes : List GpuNode
  users : List User
  gpus : List Gpu
  sessions : List GpuSession
  logs : List UsageLog
  nextId : Nat
deriving DecidableEq, Repr

/-- Fields of `AgentSessionStartRequest` read by the start handler. -/
structure SessionStartRequest where
  hostname : String
  gpuUuid : String
  user : String
  startedAt : Int
deriving DecidableEq, Repr

/-- The fields `handle_session_heartbeat` reads from its payload
(`payload.gpu_uuid`, `payload.user`, `payload.ts`).  Note that the declared
wire schema `AgentSessionHeartbeatRequest` has `hostname` and a *batch*
field `items : list[AgentSessionHeartbeatItem]` and none of these three
fields; the handler is written against a single item. -/
structure HeartbeatItemRequest where
  hostname : String
  gpuUuid : String
  user : String
  ts : Int
deriving DecidableEq, Repr

/-- Fields of `AgentSessionEndRequest` read by the end handler. -/
structure SessionEndRequest where
  hostname : String
  gpuUuid : String
  user : String
  endedAt : Int
deriving DecidableEq, Repr

/-- The `AgentSessionResponse` schema. -/
structure AgentSessionResponse where
  ok : Bool
  sessionId : Option Nat
  detail : Option String
deriving DecidableEq, Repr

/-- Query `gpu_nodes` by hostname (`filter_by(hostname=...)`, unique column). -/
def lookup_node (db : Store) (hostname : String) : Option GpuNode :=
  db.nodes.find? (fun n => decide (n.hostname = hostname))

/-- Model of `GpuService._get_or_create_node`. -/
def get_or_create_node (db : Store) (hostname : String) : Store × GpuNode :=
  match lookup_node db hostname with
  | some n => (db, n)
  | none =>
    let n : GpuNode := { id := db.nextId, hostname := hostname, agentVersion := none }
    ({ db with nodes := db.nodes ++ [n], nextId := db.nextId + 1 }, n)

/-- Query for an active user by `gpu_node_username`. -/
def lookup_active_user (db : Store) (username : String) : Option User :=
  db.users.find? (fun u => decide (u.gpuNodeUsername = some username) && u.active)

/-- Model of `GpuService.ensure_user_for_gpu_username`: find the active user
with this node username, else create a shadow "Unknown User". -/
def ensure_user_for_gpu_username (db : Store) (username : String) : Store × User :=
  match lookup_active_user db username with
  | some u => (db, u)
  | none =>
    let u : User := { id := db.nextId, name := "Unknown User",
                      gpuNodeUsername := some username, active := true }
    ({ db with users := db.users ++ [u], nextId := db.nextId + 1 }, u)

/-- Query `gpus` by hardware UUID (`filter_by(uuid=...)`, unique column). -/
def lookup_gpu (db : Store) (uuid : String) : Option Gpu :=
  db.gpus.find? (fun g => decide (g.uuid = uuid))

/-- Model of `GpuService._get_or_create_gpu` for the info the start handler
passes (`AgentGpuInfo(uuid=..., index=0)`, no name, no memory): create when
absent; on the existing branch refresh `node_id`/`index` and leave
name/memory alone because the info carries neither. -/
def get_or_create_gpu_placeholder (db : Store) (nodeId : Nat) (uuid : String) :
    Store × Gpu :=
  match lookup_gpu db uuid with
  | some g =>
    let g' : Gpu := { g with nodeId := nodeId, index := 0 }
    ({ db with gpus := db.gpus.map (fun x => if x.id = g.id then g' else x) }, g')
  | none =>
    let g : Gpu := { id := db.nextId, nodeId := nodeId, index := 0, uuid := uuid,
                     name := none, totalMemoryMb := none }
    ({ db with gpus := db.gpus ++ [g], nextId := db.nextId + 1 }, g)

/-- The filter of the RUNNING-session query shared by the heartbeat and end
handlers: `user_id == uid`, `gpu_id == gid`, `state == RUNNING`. -/
def running_for (uid gid : Nat) (s : GpuSession) : Bool :=
  decide (s.userId = uid) && decide (s.gpuId = gid) &&
    decide (s.state = SessionState.RUNNING)

/-- Strict precedence for `ORDER BY started_at DESC` (Postgres: NULLS FIRST):
`a` comes strictly after `b` when `b`'s key is strictly greater, with NULL
as the greatest key. -/
def started_desc_before (b a : GpuSession) : Bool :=
  match b.startedAt, a.startedAt with
  | none, none => false
  | none, some _ => true
  | some _, none => false
  | some x, some y => decide (y < x)

/-- The `first()` row of a query under an `ORDER BY` whose strict
precedence is `lt`: the leftmost element among the minimal ones (a stable
choice, matching a stable sort of the row order). -/
def pick_first_by (lt : α → α → Bool) : List α → Option α
  | [] => none
  | s :: rest =>
    match pick_first_by lt rest with
    | none => some s
    | some t => if lt t s then some t else some s

/-- Leftmost row among those with the greatest `started_at`
(`ORDER BY started_at DESC ... .first()`). -/
def pick_started_desc (l : List GpuSession) : Option GpuSession :=
  pick_first_by started_desc_before l

/-- The reservation-matcher filter from `handle_session_start` (and
`repo.get_reserved_session_for_start`): same pair, state RESERVED,
`reserved_until >= t` and `reserved_from <= t`.  A NULL bound fails the SQL
comparison. -/
def reserved_candidate (uid gid : Nat) (t : Int) (s : GpuSession) : Bool :=
  decide (s.userId = uid) && decide (s.gpuId = gid) &&
    decide (s.state = SessionState.RESERVED) &&
    (match s.reservedUntil with
     | some q => decide (t ≤ q)
     | none => false) &&
    (match s.reservedFrom with
     | some r => decide (r ≤ t)
     | none => false)

/-- Strict precedence for `ORDER BY reserved_from ASC` (Postgres: NULLS
LAST): `b` comes strictly before `a` when `b`'s key is strictly smaller,
with NULL as the greatest key. -/
def rf_asc_before (b a : GpuSession) : Bool :=
  match b.reservedFrom, a.reservedFrom with
  | none, _ => false
  | some _, none => true
  | some x, some y => decide (x < y)

/-- Leftmost row among those with the least `reserved_from`
(`ORDER BY reserved_from ASC ... .first()`). -/
def pick_rf_asc (l : List GpuSession) : Option GpuSession :=
  pick_first_by rf_asc_before l

/-- The Reservation Matcher: the reservation-lookup query issued by
`handle_session_start` at timestamp `t`. -/
def match_reserved (db : Store) (uid gid : Nat) (t : Int) : Option GpuSession :=
  pick_rf_asc (db.sessions.filter (reserved_candidate uid gid t))

/-- Row mutation `sess.heartbeat_at = ts`, keyed by session id. -/
def set_heartbeat (ts : Int) (i : Nat) (s : GpuSession) : GpuSession :=
  if s.id = i then { s with heartbeatAt := some ts } else s

/-- Row mutation of the end handler: `state = ENDED`, `ended_at = t`,
`heartbeat_at = t`, keyed by session id. -/
def close_session (t : Int) (i : Nat) (s : GpuSession) : GpuSession :=
  if s.id = i then
    { s with state := SessionState.ENDED, endedAt := some t, heartbeatAt := some t }
  else s

/-- Row mutation of the reservation-consuming branch of the start handler:
`state = RUNNING`, `started_at = heartbeat_at = t`, keyed by session id. -/
def start_from_reservation (t : Int) (i : Nat) (s : GpuSession) : GpuSession :=
  if s.id = i then
    { s with state := SessionState.RUNNING, startedAt := some t, heartbeatAt := some t }
  else s

/-- Model of `GpuService.handle_session_start`. -/
def handle_session_start (db : Store) (p : SessionStartRequest) :
    Store × AgentSessionResponse :=
  let t := p.startedAt
  let r1 := get_or_create_node db p.hostname
  let db1 := r1.1
  let node := r1.2
  let r2 :=
    match lookup_gpu db1 p.gpuUuid with
    | some g => (db1, g)
    | none => get_or_create_gpu_placeholder db1 node.id p.gpuUuid
  let db2 := r2.1
  let gpu := r2.2
  let r3 := ensure_user_for_gpu_username db2 p.user
  let db3 := r3.1
  let user := r3.2
  match match_reserved db3 user.id gpu.id t with
  | some sess =>
    let db4 :=
      match sess.reservedFrom with
      | some r =>
        if r < t then
          let minutes : Int := max 0 ((t - r).fdiv 60)
          if 0 < minutes then
            { db3 with logs := db3.logs ++
                [({ userId := user.id, gpuId := gpu.id, nodeId := node.id,
                    sessionId := some sess.id, startTs := r, endTs := t,
                    minutes := minutes, tag := some UsageTag.RESERVED } : UsageLog)] }
          else db3
        else db3
      | none => db3
    let db5 := { db4 with sessions := db4.sessions.map (start_from_reservation t sess.id) }
    (db5, { ok := true, sessionId := some sess.id, detail := none })
  | none =>
    let sess : GpuSession :=
      { id := db3.nextId, userId := user.id, gpuId := gpu.id, nodeId := node.id,
        state := SessionState.RUNNING, reservedFrom := none, reservedUntil := none,
        startedAt := some t, endedAt := none, heartbeatAt := some t,
        createdBy := some "agent", note := none }
    ({ db3 with sessions := db3.sessions ++ [sess], nextId := db3.nextId + 1 },
     { ok := true, sessionId := some sess.id, detail := none })

/-- Model of `GpuService.handle_session_heartbeat`.  The unknown-GPU branch
returns before `db.commit()`, so its (flushed) node insert is rolled back:
the original store is returned. -/
def handle_session_heartbeat (db : Store) (p : HeartbeatItemRequest) :
    Store × AgentSessionResponse :=
  let r1 := get_or_create_node db p.hostname
  let db1 := r1.1
  let node := r1.2
  match lookup_gpu db1 p.gpuUuid with
  | none => (db, { ok := false, sessionId := none, detail := some "unknown gpu" })
  | some gpu =>
    let r2 := ensure_user_for_gpu_username db1 p.user
    let db2 := r2.1
    let user := r2.2
    match pick_started_desc (db2.sessions.filter (running_for user.id gpu.id)) with
    | none =>
      let sess : GpuSession :=
        { id := db2.nextId, userId := user.id, gpuId := gpu.id, nodeId := node.id,
          state := SessionState.RUNNING, reservedFrom := none, reservedUntil := none,
          startedAt := some p.ts, endedAt := none, heartbeatAt := some p.ts,
          createdBy := some "agent", note := some "auto-created by heartbeat" }
      ({ db2 with sessions := db2.sessions ++ [sess], nextId := db2.nextId + 1 },
       { ok := true, sessionId := some sess.id, detail := none })
    | some sess =>
      ({ db2 with sessions := db2.sessions.map (set_heartbeat p.ts sess.id) },
       { ok := true, sessionId := some sess.id, detail := none })

/-- Abbreviation: the store a heartbeat leaves behind when it matched the
session with id `i` — only that session's `heartbeat_at` moves to `ts`. -/
def heartbeat_matched_store (db : Store) (p : HeartbeatItemRequest) (i : Nat) : Store :=
  { (ensure_user_for_gpu_username (get_or_create_node db p.hostname).1 p.user).1
    with sessions := db.sessions.map (set_heartbeat p.ts i) }

/-- Abbreviation: the recovery session a heartbeat creates when no RUNNING
session for the resolved pair exists ("auto-created by heartbeat"). -/
def heartbeat_recovery_session (db : Store) (p : HeartbeatItemRequest) (g : Gpu) :
    GpuSession :=
  { id := (ensure_user_for_gpu_username
      (get_or_create_node db p.hostname).1 p.user).1.nextId,
    userId := (ensure_user_for_gpu_username
      (get_or_create_node db p.hostname).1 p.user).2.id,
    gpuId := g.id,
    nodeId := (get_or_create_node db p.hostname).2.id,
    state := SessionState.RUNNING, reservedFrom := none, reservedUntil := none,
    startedAt := some p.ts, endedAt := none, heartbeatAt := some p.ts,
    createdBy := some "agent", note := some "auto-created by heartbeat" }

/-- Abbreviation: the store a heartbeat leaves behind when it had to create
a recovery session. -/
def heartbeat_recovery_store (db : Store) (p : HeartbeatItemRequest) (g : Gpu) : Store :=
  { (ensure_user_for_gpu_username (get_or_create_node db p.hostname).1 p.user).1
    with
    sessions := db.sessions ++ [heartbeat_recovery_session db p g],
    nextId := (ensure_user_for_gpu_username
      (get_or_create_node db p.hostname).1 p.user).1.nextId + 1 }

/-- Model of `GpuService.handle_session_end`.  Both failure branches return
before `db.commit()`, so their flushed inserts are rolled back: the original
store is returned. -/
def handle_session_end (db : Store) (p : SessionEndRequest) :
    Store × AgentSessionResponse :=
  let r1 := get_or_create_node db p.hostname
  let db1 := r1.1
  let node := r1.2
  match lookup_gpu db1 p.gpuUuid with
  | none => (db, { ok := false, sessionId := none, detail := some "unknown gpu" })
  | some gpu =>
    let r2 := ensure_user_for_gpu_username db1 p.user
    let db2 := r2.1
    let user := r2.2
    match pick_started_desc (db2.sessions.filter (running_for user.id gpu.id)) with
    | none =>
      (db, { ok := false, sessionId := none, detail := some "no active session to end" })
    | some sess =>
      let db3 := { db2 with sessions := db2.sessions.map (close_session p.endedAt sess.id) }
      let db4 :=
        match sess.startedAt with
        | some st =>
          let minutes : Int := max 1 ((p.endedAt - st).fdiv 60)
          { db3 with logs := db3.logs ++
              [({ userId := user.id, gpuId := gpu.id, nodeId := node.id,
                  sessionId := some sess.id, startTs := st, endTs := p.endedAt,
                  minutes := minutes, tag := some UsageTag.NORMAL } : UsageLog)] }
        | none => db3
      (db4, { ok := true, sessionId := some sess.id, detail := none })

/-- An HTTP error raised by a route (`fastapi.HTTPException`). -/
structure HttpError where
  status : Nat
  detail : String
deriving DecidableEq, Repr

/-- Model of the route `gpu_session_heartbeat` in
`aris/apps/internal/routes_gpu.py`: it raises `HTTPException(403)` whenever
the service response has `ok=False`. -/
def gpu_session_heartbeat_route (db : Store) (p : HeartbeatItemRequest) :
    Except HttpError (Store × AgentSessionResponse) :=
  let r := handle_session_heartbeat db p
  if r.2.ok then Except.ok r
  else Except.error ({ status := 403, detail := r.2.detail.getD "invalid request" } : HttpError)

/-- Model of the route `gpu_session_end` in
`aris/apps/internal/routes_gpu.py`: it returns the service response as-is,
never raising on a non-ok response. -/
def gpu_session_end_route (db : Store) (p : SessionEndRequest) :
    Except HttpError (Store × AgentSessionResponse) :=
  Except.ok (handle_session_end db p)

/-- Number of sessions for the pair `(uid, gid)` that are in state RESERVED
or RUNNING (the "active" sessions of the mutual-exclusion invariant). -/
def active_count (db : Store) (uid gid : Nat) : Nat :=
  (db.sessions.filter (fun s =>
    decide (s.userId = uid) && decide (s.gpuId = gid) &&
      (decide (s.state = SessionState.RESERVED) ||
       decide (s.state = SessionState.RUNNING)))).length

/-- Per-session temporal sanity: `ended_at >= started_at` when both are set;
a RUNNING session has `started_at` and `heartbeat_at` set with
`started_at <= heartbeat_at`; a session not yet ENDED has no `ended_at`. -/
def session_ok (s : GpuSession) : Bool :=
  (match s.startedAt, s.endedAt with
   | some st, some en => decide (st ≤ en)
   | _, _ => true) &&
  (match s.state with
   | SessionState.RUNNING =>
     (match s.startedAt, s.heartbeatAt with
      | some st, some hb => decide (st ≤ hb)
      | _, _ => false)
   | _ => true) &&
  (match s.state with
   | SessionState.ENDED => true
   | _ => decide (s.endedAt = none))

/-- The temporal invariant of the spec, over the whole store. -/
def store_inv (db : Store) : Bool :=
  db.sessions.all session_ok

/-- Primary-key discipline the database enforces: session ids are pairwise
distinct and below the fresh-id counter. -/
def store_wf (db : Store) : Bool :=
  db.sessions.all (fun s => decide (s.id < db.nextId)) &&
    decide ((db.sessions.map (fun s => s.id)).Nodup)

/-- The session's heartbeat (when set) is at most `t`. -/
def hb_le (t : Int) (s : GpuSession) : Bool :=
  match s.heartbeatAt with
  | some hb => decide (hb ≤ t)
  | none => true

/-- Monotone-clock hypothesis for an operation stamped `t`: no stored
heartbeat lies in the future of `t`. -/
def clock_ge (db : Store) (t : Int) : Bool :=
  db.sessions.all (hb_le t)

/-- Heartbeat monotonicity between a pre-state row and a post-state row:
if both are RUNNING, the heartbeat did not decrease. -/
def hb_mono (s s' : GpuSession) : Prop :=
  s.state = SessionState.RUNNING → s'.state = SessionState.RUNNING →
    ∀ h h', s.heartbeatAt = some h → s'.heartbeatAt = some h' → h ≤ h'

end Aris

namespace Demo

/-- A row of `gpu_sessions` in the demo variant of the data model
(`models.py` at the repository root): a reservation carries `reserved_at`
plus a duration `reserve_minutes` instead of an explicit window. -/
structure GPUSession where
  id : Nat
  userId : Nat
  gpuId : Nat
  state : Aris.SessionState
  reservedAt : Option Int
  reserveMinutes : Int
  startedAt : Option Int
  endedAt : Option Int
  heartbeatAt : Option Int
  note : Option String
deriving DecidableEq, Repr

/-- A row of `usage_logs` in the demo variant (string tags). -/
structure UsageLog where
  userId : Nat
  gpuId : Nat
  startTs : Int
  endTs : Int
  minutes : Int
  tag : String
deriving DecidableEq, Repr

/-- The database state the sweeper reads and writes. -/
structure DemoStore where
  sessions : List GPUSession
  logs : List UsageLog
deriving DecidableEq, Repr

/-- The action of `sweep_once`'s first loop on one session: a RESERVED
session whose window `[reserved_at, reserved_at + reserve_minutes]` has
fully elapsed is closed at the window end, logging the window (tag
"reserved") when its floor-minute count is positive.  A RESERVED session
with no `reserved_at` would raise a `TypeError` in the source; the demo
only ever creates reservations with `reserved_at` set (`/api/reserve`), so
it is modelled as untouched. -/
def sweep_reserved (now : Int) (s : GPUSession) : GPUSession × List UsageLog :=
  if s.state = Aris.SessionState.RESERVED then
    match s.reservedAt with
    | some r =>
      let untilTs := r + s.reserveMinutes * 60
      if untilTs < now then
        let elapsed := (untilTs - r).fdiv 60
        ({ s with state := Aris.SessionState.ENDED, endedAt := some untilTs },
         if 0 < elapsed then
           [{ userId := s.userId, gpuId := s.gpuId, startTs := r, endTs := untilTs,
              minutes := elapsed, tag := "reserved" }]
         else [])
      else (s, [])
    | none => (s, [])
  else (s, [])

/-- The action of `sweep_once`'s second loop on one session: a RUNNING
session with a heartbeat, stale by more than `staleSecs`, is closed at its
*last heartbeat* (not at the sweep time), logging
`[started_at, heartbeat_at]` (tag "running") when its floor-minute count is
positive.  A RUNNING session with no `started_at` would raise a `TypeError`
in the source; the demo only ever creates RUNNING sessions with
`started_at` set, so it is modelled as untouched. -/
def sweep_running (now staleSecs : Int) (s : GPUSession) : GPUSession × List UsageLog :=
  if s.state = Aris.SessionState.RUNNING then
    match s.heartbeatAt with
    | some hb =>
      if staleSecs < now - hb then
        match s.startedAt with
        | some st =>
          let elapsed := (hb - st).fdiv 60
          ({ s with state := Aris.SessionState.ENDED, endedAt := some hb },
           if 0 < elapsed then
             [{ userId := s.userId, gpuId := s.gpuId, startTs := st, endTs := hb,
                minutes := elapsed, tag := "running" }]
           else [])
        | none => (s, [])
      else (s, [])
    | none => (s, [])
  else (s, [])

/-- Apply one sweep loop to every session, appending the emitted logs in
row order. -/
def sweep_pass (f : GPUSession → GPUSession × List UsageLog) (st : DemoStore) :
    DemoStore :=
  { sessions := st.sessions.map (fun s => (f s).1),
    logs := st.logs ++ (st.sessions.map (fun s => (f s).2)).flatten }

/-- Model of `sweep_once` in `gpu_tracker_demo/scheduler.py`: first expire
no-show reservations, then close stale RUNNING sessions, committing both
passes together.  `staleSecs` stands for the configuration constant
`cfg.STALE_SECS`; `now` stands for the wall clock `now()`. -/
def sweep_once (now staleSecs : Int) (st : DemoStore) : DemoStore :=
  sweep_pass (sweep_running now staleSecs) (sweep_pass (sweep_reserved now) st)

end Demo

/-- The empty database. -/
def Aris.empty_store : Aris.Store :=
  { nodes := [], users := [], gpus := [], sessions := [], logs := [], nextId := 0 }

namespace Aris

theorem pick_first_by_eq_none {lt : α → α → Bool} {l : List α}
    (h : pick_first_by lt l = none) : l = [] := by
  cases l with
  | nil => rfl
  | cons a rest =>
    rw [pick_first_by] at h
    cases hrec : pick_first_by lt rest <;> rw [hrec] at h <;> simp at h
    split at h <;> simp at h

theorem pick_first_by_mem {lt : α → α → Bool} {l : List α} {s : α}
    (h : pick_first_by lt l = some s) : s ∈ l := by
  induction l with
  | nil => simp [pick_first_by] at h
  | cons a rest ih =>
    rw [pick_first_by] at h
    split at h
    · cases h
      exact List.mem_cons_self _ _
    · rename_i t hrec
      split at h
      · cases h
        exact List.mem_cons_of_mem _ (ih hrec)
      · cases h
        exact List.mem_cons_self _ _

theorem pick_first_by_min {lt : α → α → Bool}
    (hasymm : ∀ a b, lt a b = true → lt b a = false)
    (hcotrans : ∀ a b c, lt a b = false → lt b c = false → lt a c = false)
    {l : List α} {s : α} (h : pick_first_by lt l = some s) :
    ∀ x ∈ l, lt x s = false := by
  have hirrefl : ∀ a, lt a a = false := by
    intro a
    cases hb : lt a a with
    | false => rfl
    | true => exact hb ▸ hasymm a a hb
  induction l generalizing s with
  | nil => simp [pick_first_by] at h
  | cons a rest ih =>
    rw [pick_first_by] at h
    split at h
    · rename_i hrec
      obtain rfl : a = s := Option.some.inj h
      have hnil : rest = [] := pick_first_by_eq_none hrec
      subst hnil
      intro x hx
      rcases List.mem_cons.mp hx with rfl | hx'
      · exact hirrefl _
      · simp at hx'
    · rename_i t hrec
      split at h
      · rename_i hlt
        obtain rfl : t = s := Option.some.inj h
        intro x hx
        rcases List.mem_cons.mp hx with rfl | hx'
        · exact hasymm _ _ hlt
        · exact ih hrec x hx'
      · rename_i hnlt
        obtain rfl : a = s := Option.some.inj h
        have hts : lt t a = false := by
          cases hb : lt t a with
          | false => rfl
          | true => exact absurd hb hnlt
        intro x hx
        rcases List.mem_cons.mp hx with rfl | hx'
        · exact hirrefl _
        · have h1 : lt x t = false := ih hrec x hx'
          exact hcotrans x t a h1 hts

theorem pick_first_by_map {lt : α → α → Bool} {f : α → α}
    (hf : ∀ a b, lt (f a) (f b) = lt a b) (l : List α) :
    pick_first_by lt (l.map f) = (pick_first_by lt l).map f := by
  induction l with
  | nil => rfl
  | cons a rest ih =>
    rw [List.map_cons, pick_first_by, pick_first_by, ih]
    cases hrec : pick_first_by lt rest with
    | none => rfl
    | some t => simp [hf]; split <;> rfl

theorem started_desc_before_asymm (a b : GpuSession)
    (h : started_desc_before a b = true) : started_desc_before b a = false := by
  unfold started_desc_before at h ⊢
  rcases ha : a.startedAt with _ | x <;> rcases hb : b.startedAt with _ | y <;>
    rw [ha, hb] at h <;> simp_all <;> omega

theorem started_desc_before_cotrans (a b c : GpuSession)
    (hab : started_desc_before a b = false) (hbc : started_desc_before b c = false) :
    started_desc_before a c = false := by
  unfold started_desc_before at hab hbc ⊢
  rcases ha : a.startedAt with _ | x <;> rcases hb : b.startedAt with _ | y <;>
    rcases hc : c.startedAt with _ | z <;> rw [ha, hb] at hab <;> rw [hb, hc] at hbc <;>
    simp_all <;> omega

theorem rf_asc_before_asymm (a b : GpuSession)
    (h : rf_asc_before a b = true) : rf_asc_before b a = false := by
  unfold rf_asc_before at h ⊢
  rcases ha : a.reservedFrom with _ | x <;> rcases hb : b.reservedFrom with _ | y <;>
    rw [ha, hb] at h <;> simp_all <;> omega

theorem rf_asc_before_cotrans (a b c : GpuSession)
    (hab : rf_asc_before a b = false) (hbc : rf_asc_before b c = false) :
    rf_asc_before a c = false := by
  unfold rf_asc_before at hab hbc ⊢
  rcases ha : a.reservedFrom with _ | x <;> rcases hb : b.reservedFrom with _ | y <;>
    rcases hc : c.reservedFrom with _ | z <;> rw [ha, hb] at hab <;> rw [hb, hc] at hbc <;>
    simp_all <;> omega

theorem set_heartbeat_id (ts : Int) (i : Nat) (s : GpuSession) :
    (set_heartbeat ts i s).id = s.id := by
  unfold set_heartbeat; split <;> rfl

theorem set_heartbeat_userId (ts : Int) (i : Nat) (s : GpuSession) :
    (set_heartbeat ts i s).userId = s.userId := by
  unfold set_heartbeat; split <;> rfl

theorem set_heartbeat_gpuId (ts : Int) (i : Nat) (s : GpuSession) :
    (set_heartbeat ts i s).gpuId = s.gpuId := by
  unfold set_heartbeat; split <;> rfl

theorem set_heartbeat_state (ts : Int) (i : Nat) (s : GpuSession) :
    (set_heartbeat ts i s).state = s.state := by
  unfold set_heartbeat; split <;> rfl

theorem set_heartbeat_startedAt (ts : Int) (i : Nat) (s : GpuSession) :
    (set_heartbeat ts i s).startedAt = s.startedAt := by
  unfold set_heartbeat; split <;> rfl

theorem set_heartbeat_endedAt (ts : Int) (i : Nat) (s : GpuSession) :
    (set_heartbeat ts i s).endedAt = s.endedAt := by
  unfold set_heartbeat; split <;> rfl

theorem running_for_set_heartbeat (uid gid : Nat) (ts : Int) (i : Nat) (s : GpuSession) :
    running_for uid gid (set_heartbeat ts i s) = running_for uid gid s := by
  unfold running_for
  rw [set_heartbeat_userId, set_heartbeat_gpuId, set_heartbeat_state]

theorem started_desc_before_set_heartbeat (ts : Int) (i : Nat) (a b : GpuSession) :
    started_desc_before (set_heartbeat ts i a) (set_heartbeat ts i b) =
      started_desc_before a b := by
  unfold started_desc_before
  rw [set_heartbeat_startedAt, set_heartbeat_startedAt]

theorem set_heartbeat_set_heartbeat (ts : Int) (i : Nat) (s : GpuSession) :
    set_heartbeat ts i (set_heartbeat ts i s) = set_heartbeat ts i s := by
  unfold set_heartbeat
  by_cases h : s.id = i <;> simp [h]

theorem set_heartbeat_eq_self {ts : Int} {i : Nat} {s : GpuSession}
    (h : s.heartbeatAt = some ts) : set_heartbeat ts i s = s := by
  unfold set_heartbeat
  split
  · cases s
    simp_all
  · rfl

theorem get_or_create_node_gpus (db : Store) (h : String) :
    (get_or_create_node db h).1.gpus = db.gpus := by
  unfold get_or_create_node; split <;> rfl

theorem get_or_create_node_users (db : Store) (h : String) :
    (get_or_create_node db h).1.users = db.users := by
  unfold get_or_create_node; split <;> rfl

theorem get_or_create_node_sessions (db : Store) (h : String) :
    (get_or_create_node db h).1.sessions = db.sessions := by
  unfold get_or_create_node; split <;> rfl

theorem get_or_create_node_logs (db : Store) (h : String) :
    (get_or_create_node db h).1.logs = db.logs := by
  unfold get_or_create_node; split <;> rfl

theorem get_or_create_node_nextId_le (db : Store) (h : String) :
    db.nextId ≤ (get_or_create_node db h).1.nextId := by
  unfold get_or_create_node; split
  · exact Nat.le_refl _
  · exact Nat.le_succ _

theorem ensure_user_gpus (db : Store) (u : String) :
    (ensure_user_for_gpu_username db u).1.gpus = db.gpus := by
  unfold ensure_user_for_gpu_username; split <;> rfl

theorem ensure_user_nodes (db : Store) (u : String) :
    (ensure_user_for_gpu_username db u).1.nodes = db.nodes := by
  unfold ensure_user_for_gpu_username; split <;> rfl

theorem ensure_user_sessions (db : Store) (u : String) :
    (ensure_user_for_gpu_username db u).1.sessions = db.sessions := by
  unfold ensure_user_for_gpu_username; split <;> rfl

theorem ensure_user_logs (db : Store) (u : String) :
    (ensure_user_for_gpu_username db u).1.logs = db.logs := by
  unfold ensure_user_for_gpu_username; split <;> rfl

theorem ensure_user_nextId_le (db : Store) (u : String) :
    db.nextId ≤ (ensure_user_for_gpu_username db u).1.nextId := by
  unfold ensure_user_for_gpu_username; split
  · exact Nat.le_refl _
  · exact Nat.le_succ _

theorem lookup_gpu_eq_of_gpus_eq {db db' : Store} (h : db.gpus = db'.gpus) (u : String) :
    lookup_gpu db u = lookup_gpu db' u := by
  unfold lookup_gpu; rw [h]

theorem lookup_active_user_eq_of_users_eq {db db' : Store} (h : db.users = db'.users)
    (u : String) : lookup_active_user db u = lookup_active_user db' u := by
  unfold lookup_active_user; rw [h]

theorem lookup_gpu_node_step (db : Store) (h u : String) :
    lookup_gpu (get_or_create_node db h).1 u = lookup_gpu db u :=
  lookup_gpu_eq_of_gpus_eq (get_or_create_node_gpus db h) u

theorem lookup_active_user_node_step (db : Store) (h u : String) :
    lookup_active_user (get_or_create_node db h).1 u = lookup_active_user db u :=
  lookup_active_user_eq_of_users_eq (get_or_create_node_users db h) u

theorem ensure_user_found {db : Store} {username : String} {u : User}
    (h : lookup_active_user db username = some u) :
    ensure_user_for_gpu_username db username = (db, u) := by
  unfold ensure_user_for_gpu_username
  rw [h]

theorem pick_started_desc_singleton (s : GpuSession) :
    pick_started_desc [s] = some s := rfl

theorem pick_rf_asc_nil : pick_rf_asc [] = none := rfl

/-- Characterization of `handle_session_end` when the lookups resolve and a
RUNNING session is matched: the matched row is closed at the payload's
`ended_at` (heartbeat moved there too), a NORMAL UsageLog over
`[started_at, ended_at]` with `minutes = max 1 (floor/60)` is appended when
`started_at` is set (and nothing is logged otherwise), and the response is
ok with the session id. -/
theorem handle_session_end_matched
    {db : Store} {p : SessionEndRequest} {g : Gpu} {u : User} {sess : GpuSession}
    (hg : lookup_gpu db p.gpuUuid = some g)
    (hu : lookup_active_user db p.user = some u)
    (hpick : pick_started_desc (db.sessions.filter (running_for u.id g.id)) = some sess) :
    (handle_session_end db p).1.sessions =
      db.sessions.map (close_session p.endedAt sess.id) ∧
    (handle_session_end db p).1.logs = db.logs ++
      (match sess.startedAt with
       | some st =>
         [({ userId := u.id, gpuId := g.id,
             nodeId := (get_or_create_node db p.hostname).2.id,
             sessionId := some sess.id, startTs := st, endTs := p.endedAt,
             minutes := max 1 ((p.endedAt - st).fdiv 60),
             tag := some UsageTag.NORMAL } : UsageLog)]
       | none => []) ∧
    (handle_session_end db p).2 =
      { ok := true, sessionId := some sess.id, detail := none } := by
  have hg1 : lookup_gpu (get_or_create_node db p.hostname).1 p.gpuUuid = some g := by
    rw [lookup_gpu_node_step]; exact hg
  have hu1 : lookup_active_user (get_or_create_node db p.hostname).1 p.user = some u := by
    rw [lookup_active_user_node_step]; exact hu
  have hsess1 : (get_or_create_node db p.hostname).1.sessions = db.sessions :=
    get_or_create_node_sessions db p.hostname
  have hlogs1 : (get_or_create_node db p.hostname).1.logs = db.logs :=
    get_or_create_node_logs db p.hostname
  cases hst : sess.startedAt with
  | some st =>
    refine ⟨?_, ?_, ?_⟩ <;>
      simp [handle_session_end, hg1, ensure_user_found hu1, hsess1, hlogs1, hpick, hst]
  | none =>
    refine ⟨?_, ?_, ?_⟩ <;>
      simp [handle_session_end, hg1, ensure_user_found hu1, hsess1, hlogs1, hpick, hst]

theorem match_reserved_eq_of_sessions_eq {db db' : Store}
    (h : db.sessions = db'.sessions) (uid gid : Nat) (t : Int) :
    match_reserved db uid gid t = match_reserved db' uid gid t := by
  unfold match_reserved; rw [h]

theorem match_reserved_mem {db : Store} {uid gid : Nat} {t : Int} {sess : GpuSession}
    (h : match_reserved db uid gid t = some sess) :
    sess ∈ db.sessions ∧ reserved_candidate uid gid t sess = true := by
  unfold match_reserved at h
  have hm := pick_first_by_mem h
  exact ⟨List.mem_of_mem_filter hm, List.of_mem_filter hm⟩

theorem match_reserved_min {db : Store} {uid gid : Nat} {t : Int} {sess : GpuSession}
    (h : match_reserved db uid gid t = some sess) :
    ∀ x ∈ db.sessions, reserved_candidate uid gid t x = true →
      rf_asc_before x sess = false := by
  intro x hx hc
  exact pick_first_by_min rf_asc_before_asymm rf_asc_before_cotrans h x
    (List.mem_filter.mpr ⟨hx, hc⟩)

theorem reserved_candidate_iff (uid gid : Nat) (t : Int) (s : GpuSession) :
    reserved_candidate uid gid t s = true ↔
      s.userId = uid ∧ s.gpuId = gid ∧ s.state = SessionState.RESERVED ∧
      (∃ q, s.reservedUntil = some q ∧ t ≤ q) ∧
      (∃ r, s.reservedFrom = some r ∧ r ≤ t) := by
  unfold reserved_candidate
  cases hq : s.reservedUntil <;> cases hr : s.reservedFrom <;>
    simp [hq, hr, and_assoc]

/-- Characterization of `handle_session_start` when the lookups resolve and
the Reservation Matcher finds a RESERVED session: that row transitions to
RUNNING with `started_at = heartbeat_at = t`, and a reservation-consumed
(RESERVED-tag) UsageLog over `[reserved_from, t]` is appended exactly when
`reserved_from < t` and the slice spans at least one whole minute. -/
theorem handle_session_start_matched
    {db : Store} {p : SessionStartRequest} {g : Gpu} {u : User} {sess : GpuSession}
    (hg : lookup_gpu db p.gpuUuid = some g)
    (hu : lookup_active_user db p.user = some u)
    (hmatch : match_reserved db u.id g.id p.startedAt = some sess) :
    (handle_session_start db p).1.sessions =
      db.sessions.map (start_from_reservation p.startedAt sess.id) ∧
    (handle_session_start db p).1.logs = db.logs ++
      (match sess.reservedFrom with
       | some r =>
         if r < p.startedAt then
           (if 0 < max 0 ((p.startedAt - r).fdiv 60) then
             [({ userId := u.id, gpuId := g.id,
                 nodeId := (get_or_create_node db p.hostname).2.id,
                 sessionId := some sess.id, startTs := r, endTs := p.startedAt,
                 minutes := max 0 ((p.startedAt - r).fdiv 60),
                 tag := some UsageTag.RESERVED } : UsageLog)]
           else [])
         else []
       | none => []) ∧
    (handle_session_start db p).2 =
      { ok := true, sessionId := some sess.id, detail := none } := by
  have hg1 : lookup_gpu (get_or_create_node db p.hostname).1 p.gpuUuid = some g := by
    rw [lookup_gpu_node_step]; exact hg
  have hu1 : lookup_active_user (get_or_create_node db p.hostname).1 p.user = some u := by
    rw [lookup_active_user_node_step]; exact hu
  have hsess1 : (get_or_create_node db p.hostname).1.sessions = db.sessions :=
    get_or_create_node_sessions db p.hostname
  have hlogs1 : (get_or_create_node db p.hostname).1.logs = db.logs :=
    get_or_create_node_logs db p.hostname
  have hm1 : match_reserved (get_or_create_node db p.hostname).1 u.id g.id p.startedAt =
      some sess := by
    rw [match_reserved_eq_of_sessions_eq hsess1]; exact hmatch
  cases hr : sess.reservedFrom with
  | some r =>
    by_cases hrt : r < p.startedAt
    · by_cases hmin : 0 < max 0 ((p.startedAt - r).fdiv 60) <;>
        refine ⟨?_, ?_, ?_⟩ <;>
          simp [handle_session_start, hg1, ensure_user_found hu1, hsess1, hlogs1,
            hm1, hr, hrt, hmin]
    · refine ⟨?_, ?_, ?_⟩ <;>
        simp [handle_session_start, hg1, ensure_user_found hu1, hsess1, hlogs1,
          hm1, hr, hrt]
  | none =>
    refine ⟨?_, ?_, ?_⟩ <;>
      simp [handle_session_start, hg1, ensure_user_found hu1, hsess1, hlogs1, hm1, hr]

/-- Characterization of `handle_session_start` when the lookups resolve and
no reservation matches: a fresh RUNNING session for the pair is appended
with `started_at = heartbeat_at = t`, tagged as agent-created, and no
UsageLog is written. -/
theorem handle_session_start_unmatched
    {db : Store} {p : SessionStartRequest} {g : Gpu} {u : User}
    (hg : lookup_gpu db p.gpuUuid = some g)
    (hu : lookup_active_user db p.user = some u)
    (hmatch : match_reserved db u.id g.id p.startedAt = none) :
    (handle_session_start db p).1.sessions = db.sessions ++
      [({ id := (get_or_create_node db p.hostname).1.nextId, userId := u.id,
          gpuId := g.id, nodeId := (get_or_create_node db p.hostname).2.id,
          state := SessionState.RUNNING, reservedFrom := none, reservedUntil := none,
          startedAt := some p.startedAt, endedAt := none,
          heartbeatAt := some p.startedAt, createdBy := some "agent",
          note := none } : GpuSession)] ∧
    (handle_session_start db p).1.logs = db.logs ∧
    (handle_session_start db p).2 =
      { ok := true,
        sessionId := some (get_or_create_node db p.hostname).1.nextId,
        detail := none } := by
  have hg1 : lookup_gpu (get_or_create_node db p.hostname).1 p.gpuUuid = some g := by
    rw [lookup_gpu_node_step]; exact hg
  have hu1 : lookup_active_user (get_or_create_node db p.hostname).1 p.user = some u := by
    rw [lookup_active_user_node_step]; exact hu
  have hsess1 : (get_or_create_node db p.hostname).1.sessions = db.sessions :=
    get_or_create_node_sessions db p.hostname
  have hlogs1 : (get_or_create_node db p.hostname).1.logs = db.logs :=
    get_or_create_node_logs db p.hostname
  have hm1 : match_reserved (get_or_create_node db p.hostname).1 u.id g.id p.startedAt =
      none := by
    rw [match_reserved_eq_of_sessions_eq hsess1]; exact hmatch
  refine ⟨?_, ?_, ?_⟩ <;>
    simp [handle_session_start, hg1, ensure_user_found hu1, hsess1, hlogs1, hm1]

/-- Characterization of `handle_session_end` when the lookups resolve but
no RUNNING session matches: the original store is returned untouched (the
transaction is never committed) with a non-ok "no active session to end"
response. -/
theorem handle_session_end_unmatched
    {db : Store} {p : SessionEndRequest} {g : Gpu} {u : User}
    (hg : lookup_gpu db p.gpuUuid = some g)
    (hu : lookup_active_user db p.user = some u)
    (hpick : pick_started_desc (db.sessions.filter (running_for u.id g.id)) = none) :
    handle_session_end db p =
      (db, { ok := false, sessionId := none, detail := some "no active session to end" }) := by
  have hg1 : lookup_gpu (get_or_create_node db p.hostname).1 p.gpuUuid = some g := by
    rw [lookup_gpu_node_step]; exact hg
  have hu1 : lookup_active_user (get_or_create_node db p.hostname).1 p.user = some u := by
    rw [lookup_active_user_node_step]; exact hu
  have hsess1 : (get_or_create_node db p.hostname).1.sessions = db.sessions :=
    get_or_create_node_sessions db p.hostname
  simp [handle_session_end, hg1, ensure_user_found hu1, hsess1, hpick]

theorem find?_append_of_none {p : α → Bool} {l₁ l₂ : List α}
    (h : l₁.find? p = none) : (l₁ ++ l₂).find? p = l₂.find? p := by
  simp [List.find?_append, h]

theorem lookup_node_eq_of_nodes_eq {db db' : Store} (h : db.nodes = db'.nodes)
    (hn : String) : lookup_node db hn = lookup_node db' hn := by
  unfold lookup_node; rw [h]

theorem get_or_create_node_found {db : Store} {hn : String} {n : GpuNode}
    (hf : lookup_node db hn = some n) : get_or_create_node db hn = (db, n) := by
  unfold get_or_create_node
  rw [hf]

theorem get_or_create_node_self_lookup (db : Store) (hn : String) :
    lookup_node (get_or_create_node db hn).1 hn =
      some (get_or_create_node db hn).2 := by
  unfold get_or_create_node
  cases hf : lookup_node db hn with
  | some n => exact hf
  | none =>
    show lookup_node { db with
      nodes := db.nodes ++ [{ id := db.nextId, hostname := hn, agentVersion := none }],
      nextId := db.nextId + 1 } hn = _
    unfold lookup_node at hf ⊢
    rw [find?_append_of_none hf]
    simp

theorem ensure_user_self_lookup (db : Store) (u : String) :
    lookup_active_user (ensure_user_for_gpu_username db u).1 u =
      some (ensure_user_for_gpu_username db u).2 := by
  unfold ensure_user_for_gpu_username
  cases hf : lookup_active_user db u with
  | some x => exact hf
  | none =>
    show lookup_active_user { db with
      users := db.users ++ [{ id := db.nextId, name := "Unknown User",
                              gpuNodeUsername := some u, active := true }],
      nextId := db.nextId + 1 } u = _
    unfold lookup_active_user at hf ⊢
    rw [find?_append_of_none hf]
    simp

theorem map_set_heartbeat_of_fresh {ts : Int} {i : Nat} {l : List GpuSession}
    (h : ∀ s ∈ l, s.id ≠ i) : l.map (set_heartbeat ts i) = l := by
  induction l with
  | nil => rfl
  | cons a rest ih =>
    rw [List.map_cons]
    rw [ih (fun s hs => h s (List.mem_cons_of_mem _ hs))]
    have : set_heartbeat ts i a = a := by
      unfold set_heartbeat
      rw [if_neg (h a (List.mem_cons_self _ _))]
    rw [this]

theorem filter_running_map_set_heartbeat (uid gid : Nat) (ts : Int) (i : Nat)
    (l : List GpuSession) :
    (l.map (set_heartbeat ts i)).filter (running_for uid gid) =
      (l.filter (running_for uid gid)).map (set_heartbeat ts i) := by
  induction l with
  | nil => rfl
  | cons a rest ih =>
    rw [List.map_cons, List.filter_cons, List.filter_cons,
      running_for_set_heartbeat]
    by_cases hp : running_for uid gid a
    · rw [if_pos hp, if_pos hp, List.map_cons, ih]
    · rw [if_neg hp, if_neg hp, ih]

theorem pick_started_desc_map_set_heartbeat (ts : Int) (i : Nat)
    (l : List GpuSession) :
    pick_started_desc (l.map (set_heartbeat ts i)) =
      (pick_started_desc l).map (set_heartbeat ts i) :=
  pick_first_by_map (started_desc_before_set_heartbeat ts i) l

theorem map_map_set_heartbeat (ts : Int) (i : Nat) (l : List GpuSession) :
    (l.map (set_heartbeat ts i)).map (set_heartbeat ts i) =
      l.map (set_heartbeat ts i) := by
  rw [List.map_map]
  exact List.map_congr_left (fun s _ => set_heartbeat_set_heartbeat ts i s)

theorem heartbeat_matched_store_nodes (db : Store) (p : HeartbeatItemRequest) (i : Nat) :
    (heartbeat_matched_store db p i).nodes =
      (ensure_user_for_gpu_username (get_or_create_node db p.hostname).1 p.user).1.nodes :=
  rfl

theorem heartbeat_matched_store_users (db : Store) (p : HeartbeatItemRequest) (i : Nat) :
    (heartbeat_matched_store db p i).users =
      (ensure_user_for_gpu_username (get_or_create_node db p.hostname).1 p.user).1.users :=
  rfl

theorem heartbeat_matched_store_gpus (db : Store) (p : HeartbeatItemRequest) (i : Nat) :
    (heartbeat_matched_store db p i).gpus =
      (ensure_user_for_gpu_username (get_or_create_node db p.hostname).1 p.user).1.gpus :=
  rfl

theorem heartbeat_matched_store_logs (db : Store) (p : HeartbeatItemRequest) (i : Nat) :
    (heartbeat_matched_store db p i).logs =
      (ensure_user_for_gpu_username (get_or_create_node db p.hostname).1 p.user).1.logs :=
  rfl

theorem heartbeat_matched_store_sessions (db : Store) (p : HeartbeatItemRequest)
    (i : Nat) : (heartbeat_matched_store db p i).sessions =
      db.sessions.map (set_heartbeat p.ts i) :=
  rfl

theorem heartbeat_recovery_store_nodes (db : Store) (p : HeartbeatItemRequest) (g : Gpu) :
    (heartbeat_recovery_store db p g).nodes =
      (ensure_user_for_gpu_username (get_or_create_node db p.hostname).1 p.user).1.nodes :=
  rfl

theorem heartbeat_recovery_store_users (db : Store) (p : HeartbeatItemRequest) (g : Gpu) :
    (heartbeat_recovery_store db p g).users =
      (ensure_user_for_gpu_username (get_or_create_node db p.hostname).1 p.user).1.users :=
  rfl

theorem heartbeat_recovery_store_gpus (db : Store) (p : HeartbeatItemRequest) (g : Gpu) :
    (heartbeat_recovery_store db p g).gpus =
      (ensure_user_for_gpu_username (get_or_create_node db p.hostname).1 p.user).1.gpus :=
  rfl

theorem heartbeat_recovery_store_logs (db : Store) (p : HeartbeatItemRequest) (g : Gpu) :
    (heartbeat_recovery_store db p g).logs =
      (ensure_user_for_gpu_username (get_or_create_node db p.hostname).1 p.user).1.logs :=
  rfl

theorem heartbeat_recovery_store_sessions (db : Store) (p : HeartbeatItemRequest)
    (g : Gpu) : (heartbeat_recovery_store db p g).sessions =
      db.sessions ++ [heartbeat_recovery_session db p g] :=
  rfl

/-- A heartbeat applied to a store in which it has already been absorbed —
the node and user resolve by lookup, a RUNNING session for the pair is
matched, and every row carrying the matched id already has
`heartbeat_at = ts` — changes nothing: the store is returned as-is with an
ok response. -/
theorem heartbeat_applied_noop
    {X : Store} {p : HeartbeatItemRequest} {gpu : Gpu} {node : GpuNode}
    {u : User} {sess' : GpuSession}
    (hnode : lookup_node X p.hostname = some node)
    (hgpu : lookup_gpu X p.gpuUuid = some gpu)
    (huser : lookup_active_user X p.user = some u)
    (hpick : pick_started_desc (X.sessions.filter (running_for u.id gpu.id)) =
      some sess')
    (hid : ∀ s ∈ X.sessions, s.id = sess'.id → s.heartbeatAt = some p.ts) :
    handle_session_heartbeat X p =
      (X, { ok := true, sessionId := some sess'.id, detail := none }) := by
  have h1 : get_or_create_node X p.hostname = (X, node) :=
    get_or_create_node_found hnode
  have hmapid : X.sessions.map (set_heartbeat p.ts sess'.id) = X.sessions := by
    have := List.map_congr_left (l := X.sessions)
      (f := set_heartbeat p.ts sess'.id) (g := id) ?_
    · rw [this, List.map_id]
    · intro s hs
      unfold set_heartbeat
      split
      · rename_i hsid
        have hhb := hid s hs hsid
        show _ = s
        cases s
        simp_all
      · rfl
  simp only [h1, handle_session_heartbeat, hgpu, ensure_user_found huser, hpick,
    hmapid]

/-- Characterization of `handle_session_heartbeat` when the GPU resolves
and a RUNNING session for the resolved (user, gpu) pair is matched: only
that session's `heartbeat_at` is set to the payload's `ts`. -/
theorem handle_session_heartbeat_matched
    {db : Store} {p : HeartbeatItemRequest} {gpu : Gpu} {sess : GpuSession}
    (hg : lookup_gpu db p.gpuUuid = some gpu)
    (hpick : pick_started_desc (db.sessions.filter (running_for
      (ensure_user_for_gpu_username (get_or_create_node db p.hostname).1 p.user).2.id
      gpu.id)) = some sess) :
    handle_session_heartbeat db p =
      (heartbeat_matched_store db p sess.id,
       { ok := true, sessionId := some sess.id, detail := none }) := by
  have hg1 : lookup_gpu (get_or_create_node db p.hostname).1 p.gpuUuid = some gpu := by
    rw [lookup_gpu_node_step]; exact hg
  have hsess2 :
      (ensure_user_for_gpu_username (get_or_create_node db p.hostname).1 p.user).1.sessions
        = db.sessions := by
    rw [ensure_user_sessions, get_or_create_node_sessions]
  simp only [handle_session_heartbeat, heartbeat_matched_store, hg1, hsess2, hpick]

/-- Characterization of `handle_session_heartbeat` when the GPU resolves
but no RUNNING session for the resolved pair exists: a recovery session is
appended, RUNNING with `started_at = heartbeat_at = ts`, agent-created and
noted "auto-created by heartbeat". -/
theorem handle_session_heartbeat_unmatched
    {db : Store} {p : HeartbeatItemRequest} {gpu : Gpu}
    (hg : lookup_gpu db p.gpuUuid = some gpu)
    (hpick : pick_started_desc (db.sessions.filter (running_for
      (ensure_user_for_gpu_username (get_or_create_node db p.hostname).1 p.user).2.id
      gpu.id)) = none) :
    handle_session_heartbeat db p =
      (heartbeat_recovery_store db p gpu,
       { ok := true,
         sessionId := some (heartbeat_recovery_session db p gpu).id,
         detail := none }) := by
  have hg1 : lookup_gpu (get_or_create_node db p.hostname).1 p.gpuUuid = some gpu := by
    rw [lookup_gpu_node_step]; exact hg
  have hsess2 :
      (ensure_user_for_gpu_username (get_or_create_node db p.hostname).1 p.user).1.sessions
        = db.sessions := by
    rw [ensure_user_sessions, get_or_create_node_sessions]
  simp only [handle_session_heartbeat, heartbeat_recovery_store,
    heartbeat_recovery_session, hg1, hsess2, hpick]

end Aris

/-- Claim C1.  The claimed invariant — at most one RESERVED/RUNNING session
per (user, gpu) pair at any reachable state — is violated by the code: a
second `session_start` for a pair that already has a RUNNING session does
not close or reuse it (the start handler only consults the reservation
matcher) and creates a second RUNNING session.  Starting twice from the
empty store for the same hostname/GPU/user (timestamps 0 and 3600, no end
in between) leaves two active sessions for the created pair (user id 2,
gpu id 1). -/
theorem C1_second_start_duplicates_running_session :
    Aris.active_count
      ((Aris.handle_session_start
        ((Aris.handle_session_start Aris.empty_store
          { hostname := "n1", gpuUuid := "G1", user := "alice", startedAt := 0 }).1)
        { hostname := "n1", gpuUuid := "G1", user := "alice", startedAt := 3600 }).1)
      2 1 = 2 := by
  rfl

/-- Claim C6.  A heartbeat referencing a GPU UUID absent from the store is
not skipped-and-absorbed: the service returns `ok=False` with detail
"unknown gpu", and the route `gpu_session_heartbeat` turns any non-ok
response into an HTTP 403 error — so an unknown-GPU heartbeat *does* raise
an error to the caller, contradicting the claimed skip/continue/count
behaviour (the handler has no per-item batch loop at all). -/
theorem C6_unknown_gpu_heartbeat_raises :
    Aris.gpu_session_heartbeat_route Aris.empty_store
      { hostname := "n1", gpuUuid := "G-unregistered", user := "alice", ts := 100 } =
    Except.error { status := 403, detail := "unknown gpu" } := by
  rfl

/-- Claim C3, counterexample.  The claim says a Sweeper stale-close charges
`max(1, floor((end-start)/60))` minutes.  On a RUNNING session with
`started_at = 0` and `heartbeat_at = 30` (a 30-second interval, floor 0
minutes), swept at `now = 100000` with a 900-second staleness threshold,
the sweeper closes the session (state ENDED, `ended_at = 30`) but emits
*no* UsageLog at all, instead of one with `minutes = max(1, 0) = 1`. -/
theorem C3_stale_close_not_charged_minimum :
    (Demo.sweep_once 100000 900
      { sessions := [{ id := 1, userId := 1, gpuId := 1,
                       state := Aris.SessionState.RUNNING, reservedAt := none,
                       reserveMinutes := 0, startedAt := some 0, endedAt := none,
                       heartbeatAt := some 30, note := none }],
        logs := [] }).logs = [] ∧
    (Demo.sweep_once 100000 900
      { sessions := [{ id := 1, userId := 1, gpuId := 1,
                       state := Aris.SessionState.RUNNING, reservedAt := none,
                       reserveMinutes := 0, startedAt := some 0, endedAt := none,
                       heartbeatAt := some 30, note := none }],
        logs := [] }).sessions.map (fun s => (s.state, s.endedAt)) =
      [(Aris.SessionState.ENDED, some 30)] := by
  exact ⟨rfl, rfl⟩

/-- Claim C5, counterexample.  The claim says a no-show reservation is
closed with *no* UsageLog even when the reserved window spans a positive
number of minutes.  Sweeping a RESERVED session with `reserved_at = 0` and
`reserve_minutes = 30` (window `[0, 1800]`) at `now = 100000` emits a
30-minute "reserved" UsageLog covering the window. -/
theorem C5_noshow_reservation_emits_log :
    (Demo.sweep_once 100000 900
      { sessions := [{ id := 2, userId := 1, gpuId := 1,
                       state := Aris.SessionState.RESERVED, reservedAt := some 0,
                       reserveMinutes := 30, startedAt := none, endedAt := none,
                       heartbeatAt := none, note := none }],
        logs := [] }).logs =
      [{ userId := 1, gpuId := 1, startTs := 0, endTs := 1800, minutes := 30,
         tag := "reserved" }] := by
  rfl

namespace Aris

/-- Claim C4.  On `session_start` at `t` with the GPU and user resolvable:
if the Reservation Matcher finds a session, it is a RESERVED session of the
pair whose window contains `t` (`reserved_from <= t <= reserved_until`)
with the earliest `reserved_from` among all such candidates; that session
transitions to RUNNING with `started_at = heartbeat_at = t`, and a
reservation-consumed UsageLog for `[reserved_from, t]` is emitted exactly
when `reserved_from < t` and the slice spans at least one whole minute.  If
no reservation matches, a fresh RUNNING session for the pair is created
with `started_at = heartbeat_at = t` and nothing is logged. -/
theorem C4_start_consumes_matching_reservation
    (db : Store) (p : SessionStartRequest) (g : Gpu) (u : User)
    (hg : lookup_gpu db p.gpuUuid = some g)
    (hu : lookup_active_user db p.user = some u) :
    (∀ sess, match_reserved db u.id g.id p.startedAt = some sess →
      sess ∈ db.sessions ∧ sess.userId = u.id ∧ sess.gpuId = g.id ∧
      sess.state = SessionState.RESERVED ∧
      (∃ r q, sess.reservedFrom = some r ∧ sess.reservedUntil = some q ∧
        r ≤ p.startedAt ∧ p.startedAt ≤ q ∧
        (∀ x ∈ db.sessions, reserved_candidate u.id g.id p.startedAt x = true →
          ∀ rx, x.reservedFrom = some rx → r ≤ rx) ∧
        (∃ s' ∈ (handle_session_start db p).1.sessions,
          s'.id = sess.id ∧ s'.state = SessionState.RUNNING ∧
          s'.startedAt = some p.startedAt ∧ s'.heartbeatAt = some p.startedAt) ∧
        (handle_session_start db p).1.logs = db.logs ++
          (if r < p.startedAt ∧ 0 < (p.startedAt - r).fdiv 60 then
            [({ userId := u.id, gpuId := g.id,
                nodeId := (get_or_create_node db p.hostname).2.id,
                sessionId := some sess.id, startTs := r, endTs := p.startedAt,
                minutes := (p.startedAt - r).fdiv 60,
                tag := some UsageTag.RESERVED } : UsageLog)]
          else []))) ∧
    (match_reserved db u.id g.id p.startedAt = none →
      (∃ s' ∈ (handle_session_start db p).1.sessions,
        s'.userId = u.id ∧ s'.gpuId = g.id ∧ s'.state = SessionState.RUNNING ∧
        s'.startedAt = some p.startedAt ∧ s'.heartbeatAt = some p.startedAt ∧
        s'.createdBy = some "agent") ∧
      (handle_session_start db p).1.sessions.length = db.sessions.length + 1 ∧
      (handle_session_start db p).1.logs = db.logs) := by
  constructor
  · intro sess hmatch
    obtain ⟨hmem, hcand⟩ := match_reserved_mem hmatch
    obtain ⟨huid, hgid, hstate, ⟨q, hq, htq⟩, ⟨r, hr, hrt⟩⟩ :=
      (reserved_candidate_iff u.id g.id p.startedAt sess).mp hcand
    obtain ⟨hs, hl, _⟩ := handle_session_start_matched hg hu hmatch
    refine ⟨hmem, huid, hgid, hstate, r, q, hr, hq, hrt, htq, ?_, ?_, ?_⟩
    · intro x hx hcx rx hrx
      have hfalse := match_reserved_min hmatch x hx hcx
      unfold rf_asc_before at hfalse
      rw [hrx, hr] at hfalse
      simpa using hfalse
    · refine ⟨start_from_reservation p.startedAt sess.id sess, ?_, ?_⟩
      · rw [hs]
        exact List.mem_map_of_mem _ hmem
      · simp [start_from_reservation]
    · rw [hl, hr]
      by_cases h1 : r < p.startedAt
      · by_cases h2 : 0 < (p.startedAt - r).fdiv 60
        · have hmax : max 0 ((p.startedAt - r).fdiv 60) = (p.startedAt - r).fdiv 60 :=
            max_eq_right (le_of_lt h2)
          simp [h1, h2, hmax]
        · have hmax0 : ¬ (0 < max 0 ((p.startedAt - r).fdiv 60)) := by
            simp [lt_max_iff, h2]
          simp [h1, h2, hmax0]
      · simp [h1]
  · intro hmatch
    obtain ⟨hs, hl, _⟩ := handle_session_start_unmatched hg hu hmatch
    refine ⟨⟨{ id := (get_or_create_node db p.hostname).1.nextId, userId := u.id,
               gpuId := g.id, nodeId := (get_or_create_node db p.hostname).2.id,
               state := SessionState.RUNNING, reservedFrom := none,
               reservedUntil := none, startedAt := some p.startedAt, endedAt := none,
               heartbeatAt := some p.startedAt, createdBy := some "agent",
               note := none }, ?_, rfl, rfl, rfl, rfl, rfl, rfl⟩, ?_, hl⟩
    · rw [hs]
      exact List.mem_append_right _ (List.mem_singleton.mpr rfl)
    · rw [hs]
      simp

/-- Witness for C4 at a concrete input: a store holding GPU "G1" (id 1),
active user "alice" (id 2) and a RESERVED session (id 7) for the pair over
`[600, 2400]`; `session_start` arrives at `t = 900`, consuming the
reservation with a 5-minute RESERVED slice `[600, 900]`. -/
theorem C4_start_consumes_matching_reservation_witness :
    (∃ s' ∈ (handle_session_start
        { nodes := [], users := [{ id := 2, name := "A", gpuNodeUsername := some "alice",
                                   active := true }],
          gpus := [{ id := 1, nodeId := 0, index := 0, uuid := "G1", name := none,
                     totalMemoryMb := none }],
          sessions := [{ id := 7, userId := 2, gpuId := 1, nodeId := 0,
                         state := SessionState.RESERVED, reservedFrom := some 600,
                         reservedUntil := some 2400, startedAt := none, endedAt := none,
                         heartbeatAt := none, createdBy := none, note := none }],
          logs := [], nextId := 8 }
        { hostname := "n1", gpuUuid := "G1", user := "alice", startedAt := 900 }).1.sessions,
      s'.id = 7 ∧ s'.state = SessionState.RUNNING ∧
      s'.startedAt = some 900 ∧ s'.heartbeatAt = some 900) ∧
    (handle_session_start
        { nodes := [], users := [{ id := 2, name := "A", gpuNodeUsername := some "alice",
                                   active := true }],
          gpus := [{ id := 1, nodeId := 0, index := 0, uuid := "G1", name := none,
                     totalMemoryMb := none }],
          sessions := [{ id := 7, userId := 2, gpuId := 1, nodeId := 0,
                         state := SessionState.RESERVED, reservedFrom := some 600,
                         reservedUntil := some 2400, startedAt := none, endedAt := none,
                         heartbeatAt := none, createdBy := none, note := none }],
          logs := [], nextId := 8 }
        { hostname := "n1", gpuUuid := "G1", user := "alice", startedAt := 900 }).1.logs =
      [{ userId := 2, gpuId := 1, nodeId := 8, sessionId := some 7, startTs := 600,
         endTs := 900, minutes := 5, tag := some UsageTag.RESERVED }] := by
  obtain ⟨h1, _⟩ := C4_start_consumes_matching_reservation
    { nodes := [], users := [{ id := 2, name := "A", gpuNodeUsername := some "alice",
                               active := true }],
      gpus := [{ id := 1, nodeId := 0, index := 0, uuid := "G1", name := none,
                 totalMemoryMb := none }],
      sessions := [{ id := 7, userId := 2, gpuId := 1, nodeId := 0,
                     state := SessionState.RESERVED, reservedFrom := some 600,
                     reservedUntil := some 2400, startedAt := none, endedAt := none,
                     heartbeatAt := none, createdBy := none, note := none }],
      logs := [], nextId := 8 }
    { hostname := "n1", gpuUuid := "G1", user := "alice", startedAt := 900 }
    { id := 1, nodeId := 0, index := 0, uuid := "G1", name := none, totalMemoryMb := none }
    { id := 2, name := "A", gpuNodeUsername := some "alice", active := true }
    (by rfl) (by rfl)
  obtain ⟨hmem, huid, hgid, hstate, r, q, hrf, hru, hrle, htle, hmin, hex, hlogs⟩ :=
    h1 { id := 7, userId := 2, gpuId := 1, nodeId := 0,
         state := SessionState.RESERVED, reservedFrom := some 600,
         reservedUntil := some 2400, startedAt := none, endedAt := none,
         heartbeatAt := none, createdBy := none, note := none } (by rfl)
  obtain rfl : (600 : Int) = r := Option.some.inj hrf
  refine ⟨hex, ?_⟩
  rw [hlogs]
  decide

/-- Claim C7.  `session_end` for a pair with no RUNNING session in the
store is a pure no-op: the store (sessions, UsageLogs, everything) is
returned unchanged — the transaction is never committed — and the caller
receives a structured non-ok response with the distinct detail
"no active session to end"; the route `gpu_session_end` returns that
response without raising any HTTP error. -/
theorem C7_end_without_running_session_is_noop
    (db : Store) (p : SessionEndRequest) (g : Gpu) (u : User)
    (hg : lookup_gpu db p.gpuUuid = some g)
    (hu : lookup_active_user db p.user = some u)
    (hnone : db.sessions.filter (running_for u.id g.id) = []) :
    handle_session_end db p =
      (db, { ok := false, sessionId := none,
             detail := some "no active session to end" }) ∧
    gpu_session_end_route db p =
      Except.ok (db, { ok := false, sessionId := none,
                       detail := some "no active session to end" }) := by
  have hpick : pick_started_desc (db.sessions.filter (running_for u.id g.id)) = none := by
    rw [hnone]; rfl
  have h1 := handle_session_end_unmatched hg hu hpick
  exact ⟨h1, by rw [gpu_session_end_route, h1]⟩

/-- Witness for C7 at a concrete input: a store with GPU "G1" and user
"alice" but no sessions at all. -/
theorem C7_end_without_running_session_is_noop_witness :
    handle_session_end
      { nodes := [], users := [{ id := 2, name := "A", gpuNodeUsername := some "alice",
                                 active := true }],
        gpus := [{ id := 1, nodeId := 0, index := 0, uuid := "G1", name := none,
                   totalMemoryMb := none }],
        sessions := [], logs := [], nextId := 3 }
      { hostname := "n1", gpuUuid := "G1", user := "alice", endedAt := 500 } =
      ({ nodes := [], users := [{ id := 2, name := "A", gpuNodeUsername := some "alice",
                                  active := true }],
         gpus := [{ id := 1, nodeId := 0, index := 0, uuid := "G1", name := none,
                    totalMemoryMb := none }],
         sessions := [], logs := [], nextId := 3 },
       { ok := false, sessionId := none, detail := some "no active session to end" }) ∧
    gpu_session_end_route
      { nodes := [], users := [{ id := 2, name := "A", gpuNodeUsername := some "alice",
                                 active := true }],
        gpus := [{ id := 1, nodeId := 0, index := 0, uuid := "G1", name := none,
                   totalMemoryMb := none }],
        sessions := [], logs := [], nextId := 3 }
      { hostname := "n1", gpuUuid := "G1", user := "alice", endedAt := 500 } =
      Except.ok
        ({ nodes := [], users := [{ id := 2, name := "A", gpuNodeUsername := some "alice",
                                    active := true }],
           gpus := [{ id := 1, nodeId := 0, index := 0, uuid := "G1", name := none,
                      totalMemoryMb := none }],
           sessions := [], logs := [], nextId := 3 },
         { ok := false, sessionId := none, detail := some "no active session to end" }) :=
  C7_end_without_running_session_is_noop
    { nodes := [], users := [{ id := 2, name := "A", gpuNodeUsername := some "alice",
                               active := true }],
      gpus := [{ id := 1, nodeId := 0, index := 0, uuid := "G1", name := none,
                 totalMemoryMb := none }],
      sessions := [], logs := [], nextId := 3 }
    { hostname := "n1", gpuUuid := "G1", user := "alice", endedAt := 500 }
    { id := 1, nodeId := 0, index := 0, uuid := "G1", name := none, totalMemoryMb := none }
    { id := 2, name := "A", gpuNodeUsername := some "alice", active := true }
    (by rfl) (by rfl) (by rfl)

/-- Claim C10.  When `session_end` matches a RUNNING session whose
`started_at` is unset, the handler still closes it — state becomes ENDED
and both `ended_at` and `heartbeat_at` are set to the payload's `ended_at`
— returns ok with the session id, and writes no UsageLog row for the
close. -/
theorem C10_end_with_unset_started_at
    (db : Store) (p : SessionEndRequest) (g : Gpu) (u : User) (sess : GpuSession)
    (hg : lookup_gpu db p.gpuUuid = some g)
    (hu : lookup_active_user db p.user = some u)
    (hone : db.sessions.filter (running_for u.id g.id) = [sess])
    (hst : sess.startedAt = none) :
    (handle_session_end db p).2 =
      { ok := true, sessionId := some sess.id, detail := none } ∧
    (handle_session_end db p).1.logs = db.logs ∧
    (∃ s' ∈ (handle_session_end db p).1.sessions,
      s'.id = sess.id ∧ s'.state = SessionState.ENDED ∧
      s'.endedAt = some p.endedAt ∧ s'.heartbeatAt = some p.endedAt) := by
  have hpick : pick_started_desc (db.sessions.filter (running_for u.id g.id)) =
      some sess := by
    rw [hone]; rfl
  obtain ⟨hs, hl, hresp⟩ := handle_session_end_matched hg hu hpick
  have hmem : sess ∈ db.sessions := by
    have : sess ∈ db.sessions.filter (running_for u.id g.id) := by
      rw [hone]; exact List.mem_singleton.mpr rfl
    exact List.mem_of_mem_filter this
  refine ⟨hresp, ?_, ?_⟩
  · rw [hl, hst]
    simp
  · refine ⟨close_session p.endedAt sess.id sess, ?_, ?_⟩
    · rw [hs]
      exact List.mem_map_of_mem _ hmem
    · simp [close_session]

/-- Witness for C10 at a concrete input: the only RUNNING session of the
pair (id 9) has no `started_at`; ending at 700 closes it with
`ended_at = heartbeat_at = 700` and no UsageLog. -/
theorem C10_end_with_unset_started_at_witness :
    (handle_session_end
      { nodes := [], users := [{ id := 2, name := "A", gpuNodeUsername := some "alice",
                                 active := true }],
        gpus := [{ id := 1, nodeId := 0, index := 0, uuid := "G1", name := none,
                   totalMemoryMb := none }],
        sessions := [{ id := 9, userId := 2, gpuId := 1, nodeId := 0,
                       state := SessionState.RUNNING, reservedFrom := none,
                       reservedUntil := none, startedAt := none, endedAt := none,
                       heartbeatAt := some 100, createdBy := some "agent",
                       note := some "auto-created by heartbeat" }],
        logs := [], nextId := 10 }
      { hostname := "n1", gpuUuid := "G1", user := "alice", endedAt := 700 }).2 =
      { ok := true, sessionId := some 9, detail := none } ∧
    (handle_session_end
      { nodes := [], users := [{ id := 2, name := "A", gpuNodeUsername := some "alice",
                                 active := true }],
        gpus := [{ id := 1, nodeId := 0, index := 0, uuid := "G1", name := none,
                   totalMemoryMb := none }],
        sessions := [{ id := 9, userId := 2, gpuId := 1, nodeId := 0,
                       state := SessionState.RUNNING, reservedFrom := none,
                       reservedUntil := none, startedAt := none, endedAt := none,
                       heartbeatAt := some 100, createdBy := some "agent",
                       note := some "auto-created by heartbeat" }],
        logs := [], nextId := 10 }
      { hostname := "n1", gpuUuid := "G1", user := "alice", endedAt := 700 }).1.logs = [] ∧
    (∃ s' ∈ (handle_session_end
      { nodes := [], users := [{ id := 2, name := "A", gpuNodeUsername := some "alice",
                                 active := true }],
        gpus := [{ id := 1, nodeId := 0, index := 0, uuid := "G1", name := none,
                   totalMemoryMb := none }],
        sessions := [{ id := 9, userId := 2, gpuId := 1, nodeId := 0,
                       state := SessionState.RUNNING, reservedFrom := none,
                       reservedUntil := none, startedAt := none, endedAt := none,
                       heartbeatAt := some 100, createdBy := some "agent",
                       note := some "auto-created by heartbeat" }],
        logs := [], nextId := 10 }
      { hostname := "n1", gpuUuid := "G1", user := "alice", endedAt := 700 }).1.sessions,
      s'.id = 9 ∧ s'.state = SessionState.ENDED ∧
      s'.endedAt = some 700 ∧ s'.heartbeatAt = some 700) :=
  C10_end_with_unset_started_at
    { nodes := [], users := [{ id := 2, name := "A", gpuNodeUsername := some "alice",
                               active := true }],
      gpus := [{ id := 1, nodeId := 0, index := 0, uuid := "G1", name := none,
                 totalMemoryMb := none }],
      sessions := [{ id := 9, userId := 2, gpuId := 1, nodeId := 0,
                     state := SessionState.RUNNING, reservedFrom := none,
                     reservedUntil := none, startedAt := none, endedAt := none,
                     heartbeatAt := some 100, createdBy := some "agent",
                     note := some "auto-created by heartbeat" }],
      logs := [], nextId := 10 }
    { hostname := "n1", gpuUuid := "G1", user := "alice", endedAt := 700 }
    { id := 1, nodeId := 0, index := 0, uuid := "G1", name := none, totalMemoryMb := none }
    { id := 2, name := "A", gpuNodeUsername := some "alice", active := true }
    { id := 9, userId := 2, gpuId := 1, nodeId := 0, state := SessionState.RUNNING,
      reservedFrom := none, reservedUntil := none, startedAt := none, endedAt := none,
      heartbeatAt := some 100, createdBy := some "agent",
      note := some "auto-created by heartbeat" }
    (by rfl) (by rfl) (by rfl) (by rfl)

/-- Claim C3, amended.  Minute accounting differs by close kind: (1) an
explicit `session_end` close charges `minutes = max(1, floor((end-start)/60))`;
(2) a Sweeper stale-close charges plain `floor((heartbeat-start)/60)` with
*no* minimum and suppresses the row entirely when the floor is 0; (3) a
reservation slice on `session_start` charges `floor((t - reserved_from)/60)`
with no minimum and is suppressed when `reserved_from >= t` or the floor
is 0. -/
theorem C3_minutes_accounting_by_close_kind :
    (∀ (db : Store) (p : SessionEndRequest) (g : Gpu) (u : User)
        (sess : GpuSession) (st : Int),
      lookup_gpu db p.gpuUuid = some g →
      lookup_active_user db p.user = some u →
      db.sessions.filter (running_for u.id g.id) = [sess] →
      sess.startedAt = some st →
      (handle_session_end db p).1.logs = db.logs ++
        [({ userId := u.id, gpuId := g.id,
            nodeId := (get_or_create_node db p.hostname).2.id,
            sessionId := some sess.id, startTs := st, endTs := p.endedAt,
            minutes := max 1 ((p.endedAt - st).fdiv 60),
            tag := some UsageTag.NORMAL } : UsageLog)]) ∧
    (∀ (sid u g : Nat) (ra : Option Int) (rm t0 t1 t2 stale : Int)
        (e : Option Int) (nt : Option String) (logs0 : List Demo.UsageLog),
      stale < t2 - t1 →
      (Demo.sweep_once t2 stale
        { sessions := [{ id := sid, userId := u, gpuId := g,
                         state := SessionState.RUNNING, reservedAt := ra,
                         reserveMinutes := rm, startedAt := some t0, endedAt := e,
                         heartbeatAt := some t1, note := nt }],
          logs := logs0 }).logs =
        logs0 ++ (if 0 < (t1 - t0).fdiv 60 then
          [({ userId := u, gpuId := g, startTs := t0, endTs := t1,
              minutes := (t1 - t0).fdiv 60, tag := "running" } : Demo.UsageLog)]
        else [])) ∧
    (∀ (db : Store) (p : SessionStartRequest) (g : Gpu) (u : User)
        (sess : GpuSession) (r : Int),
      lookup_gpu db p.gpuUuid = some g →
      lookup_active_user db p.user = some u →
      match_reserved db u.id g.id p.startedAt = some sess →
      sess.reservedFrom = some r →
      (handle_session_start db p).1.logs = db.logs ++
        (if r < p.startedAt ∧ 0 < (p.startedAt - r).fdiv 60 then
          [({ userId := u.id, gpuId := g.id,
              nodeId := (get_or_create_node db p.hostname).2.id,
              sessionId := some sess.id, startTs := r, endTs := p.startedAt,
              minutes := (p.startedAt - r).fdiv 60,
              tag := some UsageTag.RESERVED } : UsageLog)]
        else [])) := by
  refine ⟨?_, ?_, ?_⟩
  · intro db p g u sess st hg hu hone hst
    have hpick : pick_started_desc (db.sessions.filter (running_for u.id g.id)) =
        some sess := by
      rw [hone]; rfl
    obtain ⟨_, hl, _⟩ := handle_session_end_matched hg hu hpick
    rw [hl, hst]
  · intro sid u g ra rm t0 t1 t2 stale e nt logs0 hstale
    simp [Demo.sweep_once, Demo.sweep_pass, Demo.sweep_reserved, Demo.sweep_running,
      hstale]
  · intro db p g u sess r hg hu hmatch hr
    obtain ⟨_, hl, _⟩ := handle_session_start_matched hg hu hmatch
    rw [hl, hr]
    by_cases h1 : r < p.startedAt
    · by_cases h2 : 0 < (p.startedAt - r).fdiv 60
      · have hmax : max 0 ((p.startedAt - r).fdiv 60) = (p.startedAt - r).fdiv 60 :=
          max_eq_right (le_of_lt h2)
        simp [h1, h2, hmax]
      · have hmax0 : ¬ (0 < max 0 ((p.startedAt - r).fdiv 60)) := by
          simp [lt_max_iff, h2]
        simp [h1, h2, hmax0]
    · simp [h1]

/-- Witness for C3's amended claim at concrete inputs: (1) a 30-second
explicit close charges 1 minute (the minimum); (2) a 300-second stale
sweep close charges 5 minutes with no minimum applied; (3) a 300-second
reservation slice charges 5 minutes. -/
theorem C3_minutes_accounting_by_close_kind_witness :
    (handle_session_end
      { nodes := [], users := [{ id := 2, name := "A", gpuNodeUsername := some "alice",
                                 active := true }],
        gpus := [{ id := 1, nodeId := 0, index := 0, uuid := "G1", name := none,
                   totalMemoryMb := none }],
        sessions := [{ id := 9, userId := 2, gpuId := 1, nodeId := 0,
                       state := SessionState.RUNNING, reservedFrom := none,
                       reservedUntil := none, startedAt := some 0, endedAt := none,
                       heartbeatAt := some 0, createdBy := some "agent", note := none }],
        logs := [], nextId := 10 }
      { hostname := "n1", gpuUuid := "G1", user := "alice", endedAt := 30 }).1.logs =
      [{ userId := 2, gpuId := 1, nodeId := 10, sessionId := some 9, startTs := 0,
         endTs := 30, minutes := 1, tag := some UsageTag.NORMAL }] ∧
    (Demo.sweep_once 100000 900
      { sessions := [{ id := 3, userId := 1, gpuId := 1,
                       state := SessionState.RUNNING, reservedAt := none,
                       reserveMinutes := 0, startedAt := some 0, endedAt := none,
                       heartbeatAt := some 300, note := none }],
        logs := [] }).logs =
      [{ userId := 1, gpuId := 1, startTs := 0, endTs := 300, minutes := 5,
         tag := "running" }] ∧
    (handle_session_start
      { nodes := [], users := [{ id := 2, name := "A", gpuNodeUsername := some "alice",
                                 active := true }],
        gpus := [{ id := 1, nodeId := 0, index := 0, uuid := "G1", name := none,
                   totalMemoryMb := none }],
        sessions := [{ id := 7, userId := 2, gpuId := 1, nodeId := 0,
                       state := SessionState.RESERVED, reservedFrom := some 600,
                       reservedUntil := some 2400, startedAt := none, endedAt := none,
                       heartbeatAt := none, createdBy := none, note := none }],
        logs := [], nextId := 8 }
      { hostname := "n1", gpuUuid := "G1", user := "alice", startedAt := 900 }).1.logs =
      [{ userId := 2, gpuId := 1, nodeId := 8, sessionId := some 7, startTs := 600,
         endTs := 900, minutes := 5, tag := some UsageTag.RESERVED }] := by
  refine ⟨?_, ?_, ?_⟩
  · have h := C3_minutes_accounting_by_close_kind.1
      { nodes := [], users := [{ id := 2, name := "A", gpuNodeUsername := some "alice",
                                 active := true }],
        gpus := [{ id := 1, nodeId := 0, index := 0, uuid := "G1", name := none,
                   totalMemoryMb := none }],
        sessions := [{ id := 9, userId := 2, gpuId := 1, nodeId := 0,
                       state := SessionState.RUNNING, reservedFrom := none,
                       reservedUntil := none, startedAt := some 0, endedAt := none,
                       heartbeatAt := some 0, createdBy := some "agent", note := none }],
        logs := [], nextId := 10 }
      { hostname := "n1", gpuUuid := "G1", user := "alice", endedAt := 30 }
      { id := 1, nodeId := 0, index := 0, uuid := "G1", name := none,
        totalMemoryMb := none }
      { id := 2, name := "A", gpuNodeUsername := some "alice", active := true }
      { id := 9, userId := 2, gpuId := 1, nodeId := 0, state := SessionState.RUNNING,
        reservedFrom := none, reservedUntil := none, startedAt := some 0,
        endedAt := none, heartbeatAt := some 0, createdBy := some "agent", note := none }
      0 (by rfl) (by rfl) (by rfl) (by rfl)
    rw [h]
    decide
  · have h := C3_minutes_accounting_by_close_kind.2.1
      3 1 1 none 0 0 300 100000 900 none none [] (by norm_num)
    rw [h]
    decide
  · have h := C3_minutes_accounting_by_close_kind.2.2
      { nodes := [], users := [{ id := 2, name := "A", gpuNodeUsername := some "alice",
                                 active := true }],
        gpus := [{ id := 1, nodeId := 0, index := 0, uuid := "G1", name := none,
                   totalMemoryMb := none }],
        sessions := [{ id := 7, userId := 2, gpuId := 1, nodeId := 0,
                       state := SessionState.RESERVED, reservedFrom := some 600,
                       reservedUntil := some 2400, startedAt := none, endedAt := none,
                       heartbeatAt := none, createdBy := none, note := none }],
        logs := [], nextId := 8 }
      { hostname := "n1", gpuUuid := "G1", user := "alice", startedAt := 900 }
      { id := 1, nodeId := 0, index := 0, uuid := "G1", name := none,
        totalMemoryMb := none }
      { id := 2, name := "A", gpuNodeUsername := some "alice", active := true }
      { id := 7, userId := 2, gpuId := 1, nodeId := 0, state := SessionState.RESERVED,
        reservedFrom := some 600, reservedUntil := some 2400, startedAt := none,
        endedAt := none, heartbeatAt := none, createdBy := none, note := none }
      600 (by rfl) (by rfl) (by rfl) (by rfl)
    rw [h]
    decide

/-- Claim C8.  Heartbeat application is idempotent: under the database's
primary-key discipline (every stored session id is below the fresh-id
counter), applying the same (gpu, user, ts) heartbeat twice produces
exactly the same store and response as applying it once; moreover a
heartbeat writes no UsageLog rows at all, so no duplicate rows can
appear. -/
theorem C8_heartbeat_idempotent (db : Store) (p : HeartbeatItemRequest)
    (hfresh : ∀ s ∈ db.sessions, s.id < db.nextId) :
    handle_session_heartbeat (handle_session_heartbeat db p).1 p =
      handle_session_heartbeat db p ∧
    (handle_session_heartbeat db p).1.logs = db.logs := by
  cases hg : lookup_gpu db p.gpuUuid with
  | none =>
    have hg1 : lookup_gpu (get_or_create_node db p.hostname).1 p.gpuUuid = none := by
      rw [lookup_gpu_node_step]; exact hg
    have h1 : handle_session_heartbeat db p =
        (db, { ok := false, sessionId := none, detail := some "unknown gpu" }) := by
      simp [handle_session_heartbeat, hg1]
    rw [h1]
    exact ⟨h1, rfl⟩
  | some gpu =>
    have hlogs2 :
        (ensure_user_for_gpu_username (get_or_create_node db p.hostname).1 p.user).1.logs
          = db.logs := by
      rw [ensure_user_logs, get_or_create_node_logs]
    have hnodesX :
        (ensure_user_for_gpu_username (get_or_create_node db p.hostname).1 p.user).1.nodes
          = (get_or_create_node db p.hostname).1.nodes :=
      ensure_user_nodes _ _
    have hgpusX :
        (ensure_user_for_gpu_username (get_or_create_node db p.hostname).1 p.user).1.gpus
          = db.gpus := by
      rw [ensure_user_gpus, get_or_create_node_gpus]
    cases hpick : pick_started_desc (db.sessions.filter (running_for
        (ensure_user_for_gpu_username (get_or_create_node db p.hostname).1 p.user).2.id
        gpu.id)) with
    | some sess =>
      have run1 := handle_session_heartbeat_matched hg hpick
      refine ⟨?_, by rw [run1]; exact Eq.trans (heartbeat_matched_store_logs db p sess.id) hlogs2⟩
      rw [run1]
      have hnode2 : lookup_node (heartbeat_matched_store db p sess.id) p.hostname =
          some (get_or_create_node db p.hostname).2 :=
        Eq.trans (lookup_node_eq_of_nodes_eq
          (Eq.trans (heartbeat_matched_store_nodes db p sess.id) hnodesX) p.hostname)
          (get_or_create_node_self_lookup db p.hostname)
      have hgpu2 : lookup_gpu (heartbeat_matched_store db p sess.id) p.gpuUuid =
          some gpu :=
        Eq.trans (lookup_gpu_eq_of_gpus_eq
          (Eq.trans (heartbeat_matched_store_gpus db p sess.id) hgpusX) p.gpuUuid) hg
      have huser2 : lookup_active_user (heartbeat_matched_store db p sess.id) p.user =
          some (ensure_user_for_gpu_username
            (get_or_create_node db p.hostname).1 p.user).2 :=
        Eq.trans (lookup_active_user_eq_of_users_eq
          (heartbeat_matched_store_users db p sess.id) p.user)
          (ensure_user_self_lookup (get_or_create_node db p.hostname).1 p.user)
      have hpick2 : pick_started_desc
          ((heartbeat_matched_store db p sess.id).sessions.filter
            (running_for (ensure_user_for_gpu_username
              (get_or_create_node db p.hostname).1 p.user).2.id gpu.id)) =
          some (set_heartbeat p.ts sess.id sess) := by
        rw [heartbeat_matched_store_sessions, filter_running_map_set_heartbeat,
          pick_started_desc_map_set_heartbeat, hpick]
        rfl
      have hid2 : ∀ s ∈ (heartbeat_matched_store db p sess.id).sessions,
          s.id = (set_heartbeat p.ts sess.id sess).id →
          s.heartbeatAt = some p.ts := by
        intro s hs hsid
        rw [heartbeat_matched_store_sessions] at hs
        rw [set_heartbeat_id] at hsid
        obtain ⟨s0, hs0, rfl⟩ := List.mem_map.mp hs
        rw [set_heartbeat_id] at hsid
        unfold set_heartbeat
        rw [if_pos hsid]
      have noop := heartbeat_applied_noop hnode2 hgpu2 huser2 hpick2 hid2
      rw [set_heartbeat_id] at noop
      exact noop
    | none =>
      have run1 := handle_session_heartbeat_unmatched hg hpick
      refine ⟨?_, by rw [run1]; exact Eq.trans (heartbeat_recovery_store_logs db p gpu) hlogs2⟩
      rw [run1]
      have hempty : db.sessions.filter (running_for
          (ensure_user_for_gpu_username (get_or_create_node db p.hostname).1 p.user).2.id
          gpu.id) = [] :=
        pick_first_by_eq_none hpick
      have hnode2 : lookup_node (heartbeat_recovery_store db p gpu) p.hostname =
          some (get_or_create_node db p.hostname).2 :=
        Eq.trans (lookup_node_eq_of_nodes_eq
          (Eq.trans (heartbeat_recovery_store_nodes db p gpu) hnodesX) p.hostname)
          (get_or_create_node_self_lookup db p.hostname)
      have hgpu2 : lookup_gpu (heartbeat_recovery_store db p gpu) p.gpuUuid =
          some gpu :=
        Eq.trans (lookup_gpu_eq_of_gpus_eq
          (Eq.trans (heartbeat_recovery_store_gpus db p gpu) hgpusX) p.gpuUuid) hg
      have huser2 : lookup_active_user (heartbeat_recovery_store db p gpu) p.user =
          some (ensure_user_for_gpu_username
            (get_or_create_node db p.hostname).1 p.user).2 :=
        Eq.trans (lookup_active_user_eq_of_users_eq
          (heartbeat_recovery_store_users db p gpu) p.user)
          (ensure_user_self_lookup (get_or_create_node db p.hostname).1 p.user)
      have hnew : running_for
          (ensure_user_for_gpu_username (get_or_create_node db p.hostname).1 p.user).2.id
          gpu.id (heartbeat_recovery_session db p gpu) = true := by
        simp [running_for, heartbeat_recovery_session]
      have hpick2 : pick_started_desc
          ((heartbeat_recovery_store db p gpu).sessions.filter
            (running_for (ensure_user_for_gpu_username
              (get_or_create_node db p.hostname).1 p.user).2.id gpu.id)) =
          some (heartbeat_recovery_session db p gpu) := by
        rw [heartbeat_recovery_store_sessions, List.filter_append, hempty,
          List.nil_append, List.filter_cons, if_pos hnew]
        rfl
      have hid2 : ∀ s ∈ (heartbeat_recovery_store db p gpu).sessions,
          s.id = (heartbeat_recovery_session db p gpu).id →
          s.heartbeatAt = some p.ts := by
        intro s hs hsid
        rw [heartbeat_recovery_store_sessions] at hs
        rcases List.mem_append.mp hs with h | h
        · exfalso
          have h1 : s.id < db.nextId := hfresh s h
          have h2 : db.nextId ≤
              (ensure_user_for_gpu_username
                (get_or_create_node db p.hostname).1 p.user).1.nextId :=
            le_trans (get_or_create_node_nextId_le db p.hostname)
              (ensure_user_nextId_le _ p.user)
          have h3 : s.id = (ensure_user_for_gpu_username
              (get_or_create_node db p.hostname).1 p.user).1.nextId := hsid
          omega
        · rw [List.mem_singleton.mp h]
          rfl
      have noop := heartbeat_applied_noop hnode2 hgpu2 huser2 hpick2 hid2
      exact noop

/-- Witness for C8 at a concrete input: a store with one RUNNING session
(id 9) for the pair; heartbeating twice at ts 200 equals heartbeating
once, with no UsageLog rows. -/
theorem C8_heartbeat_idempotent_witness :
    handle_session_heartbeat
      (handle_session_heartbeat
        { nodes := [], users := [{ id := 2, name := "A",
                                   gpuNodeUsername := some "alice", active := true }],
          gpus := [{ id := 1, nodeId := 0, index := 0, uuid := "G1", name := none,
                     totalMemoryMb := none }],
          sessions := [{ id := 9, userId := 2, gpuId := 1, nodeId := 0,
                         state := SessionState.RUNNING, reservedFrom := none,
                         reservedUntil := none, startedAt := some 0, endedAt := none,
                         heartbeatAt := some 100, createdBy := some "agent",
                         note := none }],
          logs := [], nextId := 10 }
        { hostname := "n1", gpuUuid := "G1", user := "alice", ts := 200 }).1
      { hostname := "n1", gpuUuid := "G1", user := "alice", ts := 200 } =
      handle_session_heartbeat
        { nodes := [], users := [{ id := 2, name := "A",
                                   gpuNodeUsername := some "alice", active := true }],
          gpus := [{ id := 1, nodeId := 0, index := 0, uuid := "G1", name := none,
                     totalMemoryMb := none }],
          sessions := [{ id := 9, userId := 2, gpuId := 1, nodeId := 0,
                         state := SessionState.RUNNING, reservedFrom := none,
                         reservedUntil := none, startedAt := some 0, endedAt := none,
                         heartbeatAt := some 100, createdBy := some "agent",
                         note := none }],
          logs := [], nextId := 10 }
        { hostname := "n1", gpuUuid := "G1", user := "alice", ts := 200 } ∧
    (handle_session_heartbeat
      { nodes := [], users := [{ id := 2, name := "A",
                                 gpuNodeUsername := some "alice", active := true }],
        gpus := [{ id := 1, nodeId := 0, index := 0, uuid := "G1", name := none,
                   totalMemoryMb := none }],
        sessions := [{ id := 9, userId := 2, gpuId := 1, nodeId := 0,
                       state := SessionState.RUNNING, reservedFrom := none,
                       reservedUntil := none, startedAt := some 0, endedAt := none,
                       heartbeatAt := some 100, createdBy := some "agent",
                       note := none }],
        logs := [], nextId := 10 }
      { hostname := "n1", gpuUuid := "G1", user := "alice", ts := 200 }).1.logs = [] :=
  C8_heartbeat_idempotent
    { nodes := [], users := [{ id := 2, name := "A",
                               gpuNodeUsername := some "alice", active := true }],
      gpus := [{ id := 1, nodeId := 0, index := 0, uuid := "G1", name := none,
                 totalMemoryMb := none }],
      sessions := [{ id := 9, userId := 2, gpuId := 1, nodeId := 0,
                     state := SessionState.RUNNING, reservedFrom := none,
                     reservedUntil := none, startedAt := some 0, endedAt := none,
                     heartbeatAt := some 100, createdBy := some "agent",
                     note := none }],
      logs := [], nextId := 10 }
    { hostname := "n1", gpuUuid := "G1", user := "alice", ts := 200 }
    (by decide)

end Aris


namespace Aris

theorem session_ok_iff (s : GpuSession) : session_ok s = true ↔
    (∀ st en, s.startedAt = some st → s.endedAt = some en → st ≤ en) ∧
    (s.state = SessionState.RUNNING →
      ∃ st hb, s.startedAt = some st ∧ s.heartbeatAt = some hb ∧ st ≤ hb) ∧
    (s.state ≠ SessionState.ENDED → s.endedAt = none) := by
  unfold session_ok
  cases hst : s.startedAt <;> cases hen : s.endedAt <;> cases hss : s.state <;>
    cases hhb : s.heartbeatAt <;> simp [hst, hen, hss, hhb]

theorem store_inv_iff (db : Store) : store_inv db = true ↔
    ∀ s ∈ db.sessions, session_ok s = true := by
  simp [store_inv, List.all_eq_true]

theorem clock_ge_iff (db : Store) (t : Int) : clock_ge db t = true ↔
    ∀ s ∈ db.sessions, ∀ h, s.heartbeatAt = some h → h ≤ t := by
  unfold clock_ge hb_le
  rw [List.all_eq_true]
  constructor
  · intro hall s hs h hh
    have := hall s hs
    rw [hh] at this
    simpa using this
  · intro hall s hs
    cases hh : s.heartbeatAt with
    | none => rfl
    | some h => simpa using hall s hs h hh

theorem session_id_inj {l : List GpuSession}
    (hnodup : (l.map (fun x => x.id)).Nodup) {a b : GpuSession}
    (ha : a ∈ l) (hb : b ∈ l) (hid : a.id = b.id) : a = b :=
  List.inj_on_of_nodup_map hnodup ha hb hid

theorem hb_mono_refl (s : GpuSession) : hb_mono s s := by
  intro _ _ h h' e e'
  rw [e] at e'
  exact le_of_eq (Option.some.inj e')

theorem hb_mono_of_map {l : List GpuSession} {f : GpuSession → GpuSession}
    (hnodup : (l.map (fun x => x.id)).Nodup)
    (hfid : ∀ x, (f x).id = x.id)
    (hmono : ∀ x ∈ l, hb_mono x (f x)) :
    ∀ s ∈ l, ∀ s' ∈ l.map f, s'.id = s.id → hb_mono s s' := by
  intro s hs s' hs' hid
  obtain ⟨x, hx, rfl⟩ := List.mem_map.mp hs'
  rw [hfid] at hid
  have hxs : x = s := session_id_inj hnodup hx hs hid
  subst hxs
  exact hmono x hx

theorem hb_mono_of_unchanged {l : List GpuSession}
    (hnodup : (l.map (fun x => x.id)).Nodup) :
    ∀ s ∈ l, ∀ s' ∈ l, s'.id = s.id → hb_mono s s' := by
  intro s hs s' hs' hid
  have : s' = s := session_id_inj hnodup hs' hs hid
  subst this
  exact hb_mono_refl s'

theorem hb_mono_of_append_new {l : List GpuSession} {new : GpuSession} {n : Nat}
    (hfresh : ∀ s ∈ l, s.id < n) (hnew : n ≤ new.id)
    (hnodup : (l.map (fun x => x.id)).Nodup) :
    ∀ s ∈ l, ∀ s' ∈ l ++ [new], s'.id = s.id → hb_mono s s' := by
  intro s hs s' hs' hid
  rcases List.mem_append.mp hs' with h | h
  · exact hb_mono_of_unchanged hnodup s hs s' h hid
  · exfalso
    rw [List.mem_singleton.mp h] at hid
    have h1 : s.id < n := hfresh s hs
    omega

theorem start_from_reservation_id (t : Int) (i : Nat) (s : GpuSession) :
    (start_from_reservation t i s).id = s.id := by
  unfold start_from_reservation; split <;> rfl

theorem close_session_id (t : Int) (i : Nat) (s : GpuSession) :
    (close_session t i s).id = s.id := by
  unfold close_session; split <;> rfl

theorem session_ok_start_map {l : List GpuSession} {sess : GpuSession} {t : Int}
    (hall : ∀ x ∈ l, session_ok x = true)
    (hnodup : (l.map (fun x => x.id)).Nodup)
    (hmem : sess ∈ l) (hres : sess.state = SessionState.RESERVED) :
    ∀ x ∈ l.map (start_from_reservation t sess.id), session_ok x = true := by
  intro x hx
  obtain ⟨x0, hx0, rfl⟩ := List.mem_map.mp hx
  unfold start_from_reservation
  split
  · rename_i hid
    have hx0s : x0 = sess := session_id_inj hnodup hx0 hmem hid
    subst hx0s
    have hok := (session_ok_iff x0).mp (hall x0 hx0)
    have hended : x0.endedAt = none := hok.2.2 (by rw [hres]; intro hcon; cases hcon)
    rw [session_ok_iff]
    refine ⟨?_, ?_, ?_⟩
    · intro st en _ hen
      have hen' : x0.endedAt = some en := hen
      rw [hended] at hen'
      cases hen'
    · intro _
      exact ⟨t, t, rfl, rfl, le_refl t⟩
    · intro _
      exact hended
  · exact hall x0 hx0

theorem session_ok_heartbeat_map {l : List GpuSession} {sess : GpuSession} {ts : Int}
    (hall : ∀ x ∈ l, session_ok x = true)
    (hnodup : (l.map (fun x => x.id)).Nodup)
    (hmem : sess ∈ l) (hrun : sess.state = SessionState.RUNNING)
    (hclk : ∀ x ∈ l, ∀ h, x.heartbeatAt = some h → h ≤ ts) :
    ∀ x ∈ l.map (set_heartbeat ts sess.id), session_ok x = true := by
  intro x hx
  obtain ⟨x0, hx0, rfl⟩ := List.mem_map.mp hx
  unfold set_heartbeat
  split
  · rename_i hid
    have hx0s : x0 = sess := session_id_inj hnodup hx0 hmem hid
    subst hx0s
    have hok := (session_ok_iff x0).mp (hall x0 hx0)
    obtain ⟨st, hb0, hst, hhb, hle⟩ := hok.2.1 hrun
    have hble := hclk x0 hx0 hb0 hhb
    have hended : x0.endedAt = none := hok.2.2 (by rw [hrun]; intro hcon; cases hcon)
    rw [session_ok_iff]
    refine ⟨?_, ?_, ?_⟩
    · intro st' en' _ hen
      have hen' : x0.endedAt = some en' := hen
      rw [hended] at hen'
      cases hen'
    · intro _
      exact ⟨st, ts, hst, rfl, le_trans hle hble⟩
    · intro _
      exact hended
  · exact hall x0 hx0

theorem session_ok_close_map {l : List GpuSession} {sess : GpuSession} {T : Int}
    (hall : ∀ x ∈ l, session_ok x = true)
    (hnodup : (l.map (fun x => x.id)).Nodup)
    (hmem : sess ∈ l) (hrun : sess.state = SessionState.RUNNING)
    (hclk : ∀ x ∈ l, ∀ h, x.heartbeatAt = some h → h ≤ T) :
    ∀ x ∈ l.map (close_session T sess.id), session_ok x = true := by
  intro x hx
  obtain ⟨x0, hx0, rfl⟩ := List.mem_map.mp hx
  unfold close_session
  split
  · rename_i hid
    have hx0s : x0 = sess := session_id_inj hnodup hx0 hmem hid
    subst hx0s
    have hok := (session_ok_iff x0).mp (hall x0 hx0)
    obtain ⟨st, hb0, hst, hhb, hle⟩ := hok.2.1 hrun
    have hble := hclk x0 hx0 hb0 hhb
    rw [session_ok_iff]
    refine ⟨?_, ?_, ?_⟩
    · intro st' en' hst' hen'
      have h1 : x0.startedAt = some st' := hst'
      rw [hst] at h1
      obtain rfl : st = st' := Option.some.inj h1
      have h2 : (T : Int) = en' := Option.some.inj hen'
      subst h2
      exact le_trans hle hble
    · intro hcon
      cases hcon
    · intro hcon
      exact absurd rfl hcon
  · exact hall x0 hx0

theorem get_or_create_gpu_placeholder_sessions (db : Store) (n : Nat) (u : String) :
    (get_or_create_gpu_placeholder db n u).1.sessions = db.sessions := by
  unfold get_or_create_gpu_placeholder; split <;> rfl

theorem get_or_create_gpu_placeholder_nextId_le (db : Store) (n : Nat) (u : String) :
    db.nextId ≤ (get_or_create_gpu_placeholder db n u).1.nextId := by
  unfold get_or_create_gpu_placeholder; split
  · exact Nat.le_refl _
  · exact Nat.le_succ _

/-- Branch analysis of `handle_session_start` at the level of the session
table, with no assumption on whether the node, GPU or user already exist:
either a RESERVED session of the store is flipped to RUNNING (started /
heartbeat stamped `t`), or a fresh RUNNING session (fresh id) is
appended. -/
theorem handle_session_start_shape (db : Store) (p : SessionStartRequest) :
    (∃ sess ∈ db.sessions, sess.state = SessionState.RESERVED ∧
      (handle_session_start db p).1.sessions =
        db.sessions.map (start_from_reservation p.startedAt sess.id)) ∨
    (∃ new : GpuSession, new.state = SessionState.RUNNING ∧
      new.startedAt = some p.startedAt ∧ new.heartbeatAt = some p.startedAt ∧
      new.endedAt = none ∧ db.nextId ≤ new.id ∧
      (handle_session_start db p).1.sessions = db.sessions ++ [new]) := by
  have hs1 : (get_or_create_node db p.hostname).1.sessions = db.sessions :=
    get_or_create_node_sessions db p.hostname
  cases hlg : lookup_gpu (get_or_create_node db p.hostname).1 p.gpuUuid with
  | some g =>
    have hs3 : (ensure_user_for_gpu_username
        (get_or_create_node db p.hostname).1 p.user).1.sessions = db.sessions := by
      rw [ensure_user_sessions, hs1]
    have hn3 : db.nextId ≤ (ensure_user_for_gpu_username
        (get_or_create_node db p.hostname).1 p.user).1.nextId :=
      le_trans (get_or_create_node_nextId_le _ _) (ensure_user_nextId_le _ _)
    cases hm : match_reserved
        (ensure_user_for_gpu_username (get_or_create_node db p.hostname).1 p.user).1
        (ensure_user_for_gpu_username (get_or_create_node db p.hostname).1 p.user).2.id
        g.id p.startedAt with
    | some sess =>
      left
      obtain ⟨hmem, hcand⟩ := match_reserved_mem hm
      rw [hs3] at hmem
      have hstate := ((reserved_candidate_iff _ _ _ _).mp hcand).2.2.1
      refine ⟨sess, hmem, hstate, ?_⟩
      cases hrf : sess.reservedFrom with
      | some r =>
        by_cases h1 : r < p.startedAt
        · by_cases h2 : 0 < max 0 ((p.startedAt - r).fdiv 60) <;>
            simp [handle_session_start, hlg, hm, hrf, h1, h2, hs3]
        · simp [handle_session_start, hlg, hm, hrf, h1, hs3]
      | none =>
        simp [handle_session_start, hlg, hm, hrf, hs3]
    | none =>
      right
      refine ⟨
        { id := (ensure_user_for_gpu_username
              (get_or_create_node db p.hostname).1 p.user).1.nextId,
          userId := (ensure_user_for_gpu_username
              (get_or_create_node db p.hostname).1 p.user).2.id,
          gpuId := g.id, nodeId := (get_or_create_node db p.hostname).2.id,
          state := SessionState.RUNNING, reservedFrom := none, reservedUntil := none,
          startedAt := some p.startedAt, endedAt := none,
          heartbeatAt := some p.startedAt, createdBy := some "agent", note := none },
        rfl, rfl, rfl, rfl, hn3, ?_⟩
      simp [handle_session_start, hlg, hm, hs3]
  | none =>
    have hs3 : (ensure_user_for_gpu_username
        (get_or_create_gpu_placeholder (get_or_create_node db p.hostname).1
          (get_or_create_node db p.hostname).2.id p.gpuUuid).1 p.user).1.sessions =
        db.sessions := by
      rw [ensure_user_sessions, get_or_create_gpu_placeholder_sessions, hs1]
    have hn3 : db.nextId ≤ (ensure_user_for_gpu_username
        (get_or_create_gpu_placeholder (get_or_create_node db p.hostname).1
          (get_or_create_node db p.hostname).2.id p.gpuUuid).1 p.user).1.nextId :=
      le_trans (get_or_create_node_nextId_le _ _)
        (le_trans (get_or_create_gpu_placeholder_nextId_le _ _ _)
          (ensure_user_nextId_le _ _))
    cases hm : match_reserved
        (ensure_user_for_gpu_username
          (get_or_create_gpu_placeholder (get_or_create_node db p.hostname).1
            (get_or_create_node db p.hostname).2.id p.gpuUuid).1 p.user).1
        (ensure_user_for_gpu_username
          (get_or_create_gpu_placeholder (get_or_create_node db p.hostname).1
            (get_or_create_node db p.hostname).2.id p.gpuUuid).1 p.user).2.id
        (get_or_create_gpu_placeholder (get_or_create_node db p.hostname).1
          (get_or_create_node db p.hostname).2.id p.gpuUuid).2.id p.startedAt with
    | some sess =>
      left
      obtain ⟨hmem, hcand⟩ := match_reserved_mem hm
      rw [hs3] at hmem
      have hstate := ((reserved_candidate_iff _ _ _ _).mp hcand).2.2.1
      refine ⟨sess, hmem, hstate, ?_⟩
      cases hrf : sess.reservedFrom with
      | some r =>
        by_cases h1 : r < p.startedAt
        · by_cases h2 : 0 < max 0 ((p.startedAt - r).fdiv 60) <;>
            simp [handle_session_start, hlg, hm, hrf, h1, h2, hs3]
        · simp [handle_session_start, hlg, hm, hrf, h1, hs3]
      | none =>
        simp [handle_session_start, hlg, hm, hrf, hs3]
    | none =>
      right
      refine ⟨
        { id := (ensure_user_for_gpu_username
              (get_or_create_gpu_placeholder (get_or_create_node db p.hostname).1
                (get_or_create_node db p.hostname).2.id p.gpuUuid).1 p.user).1.nextId,
          userId := (ensure_user_for_gpu_username
              (get_or_create_gpu_placeholder (get_or_create_node db p.hostname).1
                (get_or_create_node db p.hostname).2.id p.gpuUuid).1 p.user).2.id,
          gpuId := (get_or_create_gpu_placeholder (get_or_create_node db p.hostname).1
              (get_or_create_node db p.hostname).2.id p.gpuUuid).2.id,
          nodeId := (get_or_create_node db p.hostname).2.id,
          state := SessionState.RUNNING, reservedFrom := none, reservedUntil := none,
          startedAt := some p.startedAt, endedAt := none,
          heartbeatAt := some p.startedAt, createdBy := some "agent", note := none },
        rfl, rfl, rfl, rfl, hn3, ?_⟩
      simp [handle_session_start, hlg, hm, hs3]

theorem running_for_eq_true_iff (uid gid : Nat) (s : GpuSession) :
    running_for uid gid s = true ↔
      s.userId = uid ∧ s.gpuId = gid ∧ s.state = SessionState.RUNNING := by
  unfold running_for
  simp [and_assoc]

/-- Branch analysis of `handle_session_heartbeat` at the level of the
session table: either nothing changes (unknown GPU, rolled back), or a
RUNNING session of the store gets its heartbeat stamped, or a fresh
RUNNING recovery session is appended. -/
theorem handle_session_heartbeat_shape (db : Store) (p : HeartbeatItemRequest) :
    (handle_session_heartbeat db p).1.sessions = db.sessions ∨
    (∃ sess ∈ db.sessions, sess.state = SessionState.RUNNING ∧
      (handle_session_heartbeat db p).1.sessions =
        db.sessions.map (set_heartbeat p.ts sess.id)) ∨
    (∃ new : GpuSession, new.state = SessionState.RUNNING ∧
      new.startedAt = some p.ts ∧ new.heartbeatAt = some p.ts ∧
      new.endedAt = none ∧ db.nextId ≤ new.id ∧
      (handle_session_heartbeat db p).1.sessions = db.sessions ++ [new]) := by
  cases hg : lookup_gpu db p.gpuUuid with
  | none =>
    left
    have hg1 : lookup_gpu (get_or_create_node db p.hostname).1 p.gpuUuid = none := by
      rw [lookup_gpu_node_step]; exact hg
    simp [handle_session_heartbeat, hg1]
  | some gpu =>
    cases hpick : pick_started_desc (db.sessions.filter (running_for
        (ensure_user_for_gpu_username (get_or_create_node db p.hostname).1 p.user).2.id
        gpu.id)) with
    | some sess =>
      right; left
      have run1 := handle_session_heartbeat_matched hg hpick
      have hmem0 : sess ∈ db.sessions.filter (running_for
          (ensure_user_for_gpu_username
            (get_or_create_node db p.hostname).1 p.user).2.id gpu.id) :=
        pick_first_by_mem hpick
      have hmem := List.mem_of_mem_filter hmem0
      have hrf := List.of_mem_filter hmem0
      have hstate := ((running_for_eq_true_iff _ _ _).mp hrf).2.2
      exact ⟨sess, hmem, hstate,
        by rw [run1]; exact heartbeat_matched_store_sessions db p sess.id⟩
    | none =>
      right; right
      have run1 := handle_session_heartbeat_unmatched hg hpick
      refine ⟨heartbeat_recovery_session db p gpu, rfl, rfl, rfl, rfl, ?_, ?_⟩
      · exact le_trans (get_or_create_node_nextId_le _ _) (ensure_user_nextId_le _ _)
      · rw [run1]
        exact heartbeat_recovery_store_sessions db p gpu

/-- Branch analysis of `handle_session_end` at the level of the session
table: either nothing changes (unknown GPU or no active session — both
rolled back), or a RUNNING session of the store is closed at the payload's
`ended_at`. -/
theorem handle_session_end_shape (db : Store) (p : SessionEndRequest) :
    (handle_session_end db p).1.sessions = db.sessions ∨
    (∃ sess ∈ db.sessions, sess.state = SessionState.RUNNING ∧
      (handle_session_end db p).1.sessions =
        db.sessions.map (close_session p.endedAt sess.id)) := by
  cases hg : lookup_gpu db p.gpuUuid with
  | none =>
    left
    have hg1 : lookup_gpu (get_or_create_node db p.hostname).1 p.gpuUuid = none := by
      rw [lookup_gpu_node_step]; exact hg
    simp [handle_session_end, hg1]
  | some gpu =>
    have hg1 : lookup_gpu (get_or_create_node db p.hostname).1 p.gpuUuid = some gpu := by
      rw [lookup_gpu_node_step]; exact hg
    have hs3 : (ensure_user_for_gpu_username
        (get_or_create_node db p.hostname).1 p.user).1.sessions = db.sessions := by
      rw [ensure_user_sessions, get_or_create_node_sessions]
    cases hpick : pick_started_desc (db.sessions.filter (running_for
        (ensure_user_for_gpu_username (get_or_create_node db p.hostname).1 p.user).2.id
        gpu.id)) with
    | none =>
      left
      simp [handle_session_end, hg1, hs3, hpick]
    | some sess =>
      right
      have hmem0 : sess ∈ db.sessions.filter (running_for
          (ensure_user_for_gpu_username
            (get_or_create_node db p.hostname).1 p.user).2.id gpu.id) :=
        pick_first_by_mem hpick
      have hmem := List.mem_of_mem_filter hmem0
      have hrf := List.of_mem_filter hmem0
      have hstate := ((running_for_eq_true_iff _ _ _).mp hrf).2.2
      refine ⟨sess, hmem, hstate, ?_⟩
      cases hst : sess.startedAt <;>
        simp [handle_session_end, hg1, hs3, hpick, hst]

theorem session_ok_append_new {l : List GpuSession} {new : GpuSession} {t : Int}
    (hall : ∀ x ∈ l, session_ok x = true)
    (_hrun : new.state = SessionState.RUNNING)
    (hst : new.startedAt = some t) (hhb : new.heartbeatAt = some t)
    (hen : new.endedAt = none) :
    ∀ x ∈ l ++ [new], session_ok x = true := by
  intro x hx
  rcases List.mem_append.mp hx with h | h
  · exact hall x h
  · rw [List.mem_singleton.mp h]
    rw [session_ok_iff]
    refine ⟨?_, ?_, ?_⟩
    · intro st en _ hcon
      rw [hen] at hcon
      cases hcon
    · intro _
      exact ⟨t, t, hst, hhb, le_refl t⟩
    · intro _
      exact hen

theorem store_wf_iff (db : Store) : store_wf db = true ↔
    (∀ s ∈ db.sessions, s.id < db.nextId) ∧
    (db.sessions.map (fun s => s.id)).Nodup := by
  simp [store_wf, List.all_eq_true]

/-- Claim C9, amended.  Under a monotone clock — no stored heartbeat lies
in the future of the request's timestamp — and the database's primary-key
discipline, each of `session_start`, `session_heartbeat` and `session_end`
preserves the temporal invariant (`ended_at >= started_at` when both set;
a RUNNING session has `started_at <= heartbeat_at`; a non-ENDED session
has no `ended_at`), and no session RUNNING both before and after the
operation sees its `heartbeat_at` decrease.  (Without the monotone-clock
assumption the claim fails — see the counterexample.) -/
theorem C9_invariant_preserved_with_monotone_timestamps
    (db : Store) (hinv : store_inv db = true) (hwf : store_wf db = true) :
    (∀ p : SessionStartRequest, clock_ge db p.startedAt = true →
      store_inv (handle_session_start db p).1 = true ∧
      (∀ s ∈ db.sessions, ∀ s' ∈ (handle_session_start db p).1.sessions,
        s'.id = s.id → hb_mono s s')) ∧
    (∀ p : HeartbeatItemRequest, clock_ge db p.ts = true →
      store_inv (handle_session_heartbeat db p).1 = true ∧
      (∀ s ∈ db.sessions, ∀ s' ∈ (handle_session_heartbeat db p).1.sessions,
        s'.id = s.id → hb_mono s s')) ∧
    (∀ p : SessionEndRequest, clock_ge db p.endedAt = true →
      store_inv (handle_session_end db p).1 = true ∧
      (∀ s ∈ db.sessions, ∀ s' ∈ (handle_session_end db p).1.sessions,
        s'.id = s.id → hb_mono s s')) := by
  obtain ⟨hfresh, hnodup⟩ := (store_wf_iff db).mp hwf
  have hall := (store_inv_iff db).mp hinv
  refine ⟨?_, ?_, ?_⟩
  · intro p hclk
    rcases handle_session_start_shape db p with
      ⟨sess, hmem, hres, hsess⟩ | ⟨new, hrun, hst, hhb, hen, hidn, hsess⟩
    · constructor
      · rw [store_inv_iff, hsess]
        exact session_ok_start_map hall hnodup hmem hres
      · rw [hsess]
        apply hb_mono_of_map hnodup (start_from_reservation_id p.startedAt sess.id)
        intro x hx
        unfold start_from_reservation
        split
        · rename_i hid
          have hxs : x = sess := session_id_inj hnodup hx hmem hid
          subst hxs
          intro hxrun
          simp [hres] at hxrun
        · exact hb_mono_refl x
    · constructor
      · rw [store_inv_iff, hsess]
        exact session_ok_append_new hall hrun hst hhb hen
      · rw [hsess]
        exact hb_mono_of_append_new hfresh hidn hnodup
  · intro p hclk
    have hclk' := (clock_ge_iff db p.ts).mp hclk
    rcases handle_session_heartbeat_shape db p with
      hsess | ⟨sess, hmem, hrun, hsess⟩ | ⟨new, hrun, hst, hhb, hen, hidn, hsess⟩
    · constructor
      · rw [store_inv_iff, hsess]
        exact hall
      · rw [hsess]
        exact hb_mono_of_unchanged hnodup
    · constructor
      · rw [store_inv_iff, hsess]
        exact session_ok_heartbeat_map hall hnodup hmem hrun hclk'
      · rw [hsess]
        apply hb_mono_of_map hnodup (set_heartbeat_id p.ts sess.id)
        intro x hx
        unfold set_heartbeat
        split
        · intro _ _ h h' e e'
          have e'' : some p.ts = some h' := e'
          obtain rfl : p.ts = h' := Option.some.inj e''
          exact hclk' x hx h e
        · exact hb_mono_refl x
    · constructor
      · rw [store_inv_iff, hsess]
        exact session_ok_append_new hall hrun hst hhb hen
      · rw [hsess]
        exact hb_mono_of_append_new hfresh hidn hnodup
  · intro p hclk
    have hclk' := (clock_ge_iff db p.endedAt).mp hclk
    rcases handle_session_end_shape db p with hsess | ⟨sess, hmem, hrun, hsess⟩
    · constructor
      · rw [store_inv_iff, hsess]
        exact hall
      · rw [hsess]
        exact hb_mono_of_unchanged hnodup
    · constructor
      · rw [store_inv_iff, hsess]
        exact session_ok_close_map hall hnodup hmem hrun hclk'
      · rw [hsess]
        apply hb_mono_of_map hnodup (close_session_id p.endedAt sess.id)
        intro x hx
        unfold close_session
        split
        · intro _ hcon
          exact SessionState.noConfusion hcon
        · exact hb_mono_refl x

/-- Witness for C9's amended claim at a concrete input: a well-formed
store with a RUNNING session (started 0, heartbeat 100) and requests
stamped 200; each of the three operations preserves the invariant. -/
theorem C9_invariant_preserved_with_monotone_timestamps_witness :
    store_inv (handle_session_start
      { nodes := [], users := [{ id := 2, name := "A",
                                 gpuNodeUsername := some "alice", active := true }],
        gpus := [{ id := 1, nodeId := 0, index := 0, uuid := "G1", name := none,
                   totalMemoryMb := none }],
        sessions := [{ id := 9, userId := 2, gpuId := 1, nodeId := 0,
                       state := SessionState.RUNNING, reservedFrom := none,
                       reservedUntil := none, startedAt := some 0, endedAt := none,
                       heartbeatAt := some 100, createdBy := some "agent",
                       note := none }],
        logs := [], nextId := 10 }
      { hostname := "n1", gpuUuid := "G1", user := "alice", startedAt := 200 }).1 =
        true ∧
    store_inv (handle_session_heartbeat
      { nodes := [], users := [{ id := 2, name := "A",
                                 gpuNodeUsername := some "alice", active := true }],
        gpus := [{ id := 1, nodeId := 0, index := 0, uuid := "G1", name := none,
                   totalMemoryMb := none }],
        sessions := [{ id := 9, userId := 2, gpuId := 1, nodeId := 0,
                       state := SessionState.RUNNING, reservedFrom := none,
                       reservedUntil := none, startedAt := some 0, endedAt := none,
                       heartbeatAt := some 100, createdBy := some "agent",
                       note := none }],
        logs := [], nextId := 10 }
      { hostname := "n1", gpuUuid := "G1", user := "alice", ts := 200 }).1 = true ∧
    store_inv (handle_session_end
      { nodes := [], users := [{ id := 2, name := "A",
                                 gpuNodeUsername := some "alice", active := true }],
        gpus := [{ id := 1, nodeId := 0, index := 0, uuid := "G1", name := none,
                   totalMemoryMb := none }],
        sessions := [{ id := 9, userId := 2, gpuId := 1, nodeId := 0,
                       state := SessionState.RUNNING, reservedFrom := none,
                       reservedUntil := none, startedAt := some 0, endedAt := none,
                       heartbeatAt := some 100, createdBy := some "agent",
                       note := none }],
        logs := [], nextId := 10 }
      { hostname := "n1", gpuUuid := "G1", user := "alice", endedAt := 200 }).1 =
        true := by
  have h := C9_invariant_preserved_with_monotone_timestamps
    { nodes := [], users := [{ id := 2, name := "A",
                               gpuNodeUsername := some "alice", active := true }],
      gpus := [{ id := 1, nodeId := 0, index := 0, uuid := "G1", name := none,
                 totalMemoryMb := none }],
      sessions := [{ id := 9, userId := 2, gpuId := 1, nodeId := 0,
                     state := SessionState.RUNNING, reservedFrom := none,
                     reservedUntil := none, startedAt := some 0, endedAt := none,
                     heartbeatAt := some 100, createdBy := some "agent",
                     note := none }],
      logs := [], nextId := 10 } (by decide) (by decide)
  exact ⟨(h.1 { hostname := "n1", gpuUuid := "G1", user := "alice", startedAt := 200 }
      (by decide)).1,
    (h.2.1 { hostname := "n1", gpuUuid := "G1", user := "alice", ts := 200 }
      (by decide)).1,
    (h.2.2 { hostname := "n1", gpuUuid := "G1", user := "alice", endedAt := 200 }
      (by decide)).1⟩

end Aris

/-- Claim C2.  When the Sweeper fires at `t2` on a RUNNING session whose
last heartbeat `t1` is stale (`t2 > t1 + stale`, threshold non-negative),
it closes the session with `ended_at = t1` — the last heartbeat — and any
UsageLog this close emits covers `[started_at, t1]`, so its `end_ts` is
`t1` and never the sweep time `t2` (which differs from `t1`).  The log
exists exactly when the billable interval spans a positive number of whole
minutes. -/
theorem C2_stale_close_uses_last_heartbeat
    (sid u g : Nat) (ra : Option Int) (rm t0 t1 t2 stale : Int)
    (e : Option Int) (nt : Option String) (logs0 : List Demo.UsageLog)
    (hstale : stale < t2 - t1) (hnonneg : 0 ≤ stale) :
    let s : Demo.GPUSession :=
      { id := sid, userId := u, gpuId := g, state := Aris.SessionState.RUNNING,
        reservedAt := ra, reserveMinutes := rm, startedAt := some t0,
        endedAt := e, heartbeatAt := some t1, note := nt }
    let post := Demo.sweep_once t2 stale { sessions := [s], logs := logs0 }
    post.sessions = [{ s with state := Aris.SessionState.ENDED, endedAt := some t1 }] ∧
    post.logs = logs0 ++ (if 0 < (t1 - t0).fdiv 60 then
        [{ userId := u, gpuId := g, startTs := t0, endTs := t1,
           minutes := (t1 - t0).fdiv 60, tag := "running" }] else []) ∧
    (∀ l ∈ post.logs, l ∉ logs0 → l.endTs = t1) ∧ t1 ≠ t2 := by
  refine ⟨?_, ?_, ?_, by omega⟩
  · simp [Demo.sweep_once, Demo.sweep_pass, Demo.sweep_reserved, Demo.sweep_running, hstale]
  · simp [Demo.sweep_once, Demo.sweep_pass, Demo.sweep_reserved, Demo.sweep_running, hstale]
  · intro l hl hnl
    simp only [Demo.sweep_once, Demo.sweep_pass, Demo.sweep_reserved,
      Demo.sweep_running] at hl
    by_cases hf : 0 < (t1 - t0).fdiv 60 <;> simp [hstale, hf] at hl
    · rcases hl with hl | hl
      · exact absurd hl hnl
      · rw [hl]
    · exact absurd hl hnl

/-- Witness for C2 at a concrete input: session started at 0, last
heartbeat 300, swept at 100000 with a 900-second threshold. -/
theorem C2_stale_close_uses_last_heartbeat_witness :
    let s : Demo.GPUSession :=
      { id := 1, userId := 1, gpuId := 1, state := Aris.SessionState.RUNNING,
        reservedAt := none, reserveMinutes := 0, startedAt := some 0,
        endedAt := none, heartbeatAt := some 300, note := none }
    let post := Demo.sweep_once 100000 900 { sessions := [s], logs := [] }
    post.sessions = [{ s with state := Aris.SessionState.ENDED, endedAt := some 300 }] ∧
    post.logs = [] ++ (if 0 < ((300 : Int) - 0).fdiv 60 then
        [{ userId := 1, gpuId := 1, startTs := 0, endTs := 300,
           minutes := ((300 : Int) - 0).fdiv 60, tag := "running" }] else []) ∧
    (∀ l ∈ post.logs, l ∉ ([] : List Demo.UsageLog) → l.endTs = 300) ∧
    (300 : Int) ≠ 100000 :=
  C2_stale_close_uses_last_heartbeat 1 1 1 none 0 0 300 100000 900 none none []
    (by norm_num) (by norm_num)

/-- Claim C5, amended.  A RESERVED session whose window
`[reserved_at, reserved_at + 60*reserve_minutes]` has fully elapsed without
usage ever being observed (it is still RESERVED) is closed by the Sweeper
at the window end (`ended_at = reserved_until`), and a "reserved" UsageLog
covering the whole window (`minutes = reserve_minutes`) is emitted exactly
when the window spans a positive number of minutes; only a 0-minute window
produces no log. -/
theorem C5_noshow_reservation_closed_at_window_end
    (sid u g : Nat) (r m : Int) (st0 hb e : Option Int) (nt : Option String)
    (now stale : Int) (logs0 : List Demo.UsageLog)
    (helapsed : r + m * 60 < now) :
    let s : Demo.GPUSession :=
      { id := sid, userId := u, gpuId := g, state := Aris.SessionState.RESERVED,
        reservedAt := some r, reserveMinutes := m, startedAt := st0,
        endedAt := e, heartbeatAt := hb, note := nt }
    let post := Demo.sweep_once now stale { sessions := [s], logs := logs0 }
    post.sessions =
      [{ s with state := Aris.SessionState.ENDED, endedAt := some (r + m * 60) }] ∧
    post.logs = logs0 ++ (if 0 < m then
        [{ userId := u, gpuId := g, startTs := r, endTs := r + m * 60,
           minutes := m, tag := "reserved" }] else []) := by
  have hm : (r + m * 60 - r).fdiv 60 = m := by
    rw [show r + m * 60 - r = m * 60 by ring]
    exact Int.mul_fdiv_cancel m (by norm_num)
  constructor
  · simp [Demo.sweep_once, Demo.sweep_pass, Demo.sweep_reserved, Demo.sweep_running,
      helapsed]
  · simp [Demo.sweep_once, Demo.sweep_pass, Demo.sweep_reserved, Demo.sweep_running,
      helapsed, hm]

/-- Witness for C5's amended claim at a concrete input: a 30-minute
reservation `[0, 1800]`, never started, swept at 100000. -/
theorem C5_noshow_reservation_closed_at_window_end_witness :
    let s : Demo.GPUSession :=
      { id := 2, userId := 1, gpuId := 1, state := Aris.SessionState.RESERVED,
        reservedAt := some 0, reserveMinutes := 30, startedAt := none,
        endedAt := none, heartbeatAt := none, note := none }
    let post := Demo.sweep_once 100000 900 { sessions := [s], logs := [] }
    post.sessions =
      [{ s with state := Aris.SessionState.ENDED, endedAt := some (0 + 30 * 60) }] ∧
    post.logs = [] ++ (if (0 : Int) < 30 then
        [{ userId := 1, gpuId := 1, startTs := 0, endTs := 0 + 30 * 60,
           minutes := 30, tag := "reserved" }] else []) :=
  C5_noshow_reservation_closed_at_window_end 2 1 1 0 30 none none none none 100000 900 []
    (by norm_num)

/-- Claim C9, counterexample.  `handle_session_heartbeat` sets
`heartbeat_at = payload.ts` unconditionally, so an out-of-order heartbeat
moves the heartbeat backwards while the session stays RUNNING: after a
start at `t = 100` (heartbeat 100) a heartbeat stamped 40 leaves the
RUNNING session with `heartbeat_at = 40 < 100`. -/
theorem C9_heartbeat_decreases_on_out_of_order_report :
    ((Aris.handle_session_start Aris.empty_store
        { hostname := "n1", gpuUuid := "G1", user := "alice", startedAt := 100 }).1.sessions.map
      (fun s => (s.state, s.heartbeatAt)) = [(Aris.SessionState.RUNNING, some 100)]) ∧
    ((Aris.handle_session_heartbeat
        (Aris.handle_session_start Aris.empty_store
          { hostname := "n1", gpuUuid := "G1", user := "alice", startedAt := 100 }).1
        { hostname := "n1", gpuUuid := "G1", user := "alice", ts := 40 }).1.sessions.map
      (fun s => (s.state, s.heartbeatAt)) = [(Aris.SessionState.RUNNING, some 40)]) ∧
    (40 : Int) < 100 := by
  exact ⟨rfl, rfl, by norm_num⟩
